import Mathlib

/-!
Verification development for the `django-sam-healthcare` HL7/X12 pipeline
(`example/hl7_utils.py`, `logtrace/services.py`).

Modelling conventions (shallow embedding of the Python source):
* Python `str` values are modelled as `List Char` (`Chars`); all string
  operations used by the source (`split`, `strip`, `splitlines`,
  `startswith`, `in`, `replace`) are re-implemented below over lists.
  `str.strip`/`str.splitlines`/`str.isdigit` are modelled for the ASCII
  repertoire actually exercised by the code (`' '`, tab, `\n`, `\r`,
  `\x0b`, `\x0c`); exotic unicode whitespace/line separators are out of
  the model.
* Python floats are idealised as exact rationals (`ℚ`); the literal
  `0.8` is modelled as `4/5`, `round(x, 2)` as round-half-to-even on
  cents (`rhe`), and `f"{x:.2f}"` as `fmt2`.  (`fmt2` renders a value
  that rounds to zero as `0.00` even when the Python float would be a
  negative zero `-0.00`; the numeric value parsed back is identical.)
* Fallible Python code (`float(...)`, `datetime.strptime`) is modelled
  with `Option`/`Except PyExc`; an uncaught exception is `Except.error`.
-/

abbrev Chars := List Char

inductive PyExc where
  | valueError
deriving DecidableEq, Repr

/-- Python's `str.split(sep)` for a single-character separator:
`n` occurrences of the separator yield `n+1` (possibly empty) pieces. -/
def pySplit (c : Char) : Chars → List Chars
  | [] => [[]]
  | a :: t =>
    let r := pySplit c t
    if a = c then [] :: r
    else (a :: r.headD []) :: r.tail

/-- The whitespace set of CPython's `str.strip()` (ASCII part). -/
def isPyWs (c : Char) : Bool :=
  c = ' ' || c = '\t' || c = '\n' || c = '\r' || c = '\x0b' || c = '\x0c'

/-- Python's `str.strip()`. -/
def pyStrip (s : Chars) : Chars :=
  ((s.dropWhile isPyWs).reverse.dropWhile isPyWs).reverse

/-- Python's `str.replace("\r\n", "\n").replace("\r", "\n")` (newline
normalisation as done in `extract_hl7_summary` / `extract_source_context_from_msh`). -/
def normNl : Chars → Chars
  | '\r' :: '\n' :: t => '\n' :: normNl t
  | '\r' :: t => '\n' :: normNl t
  | a :: t => a :: normNl t
  | [] => []

/-- Python's `str.replace("\n", "")`. -/
def removeNl (s : Chars) : Chars := s.filter (fun c => c ≠ '\n')

/-- Worker for `pySplitLines`; accumulates the current line reversed. -/
def slGo : Chars → Chars → List Chars
  | cur, [] => [cur.reverse]
  | cur, '\r' :: '\n' :: t =>
    cur.reverse :: (match t with | [] => [] | _ => slGo [] t)
  | cur, '\n' :: t =>
    cur.reverse :: (match t with | [] => [] | _ => slGo [] t)
  | cur, '\r' :: t =>
    cur.reverse :: (match t with | [] => [] | _ => slGo [] t)
  | cur, a :: t => slGo (a :: cur) t

/-- Python's `str.splitlines()` restricted to `\n`, `\r`, `\r\n`
terminators (the ones this repository's messages use). -/
def pySplitLines (s : Chars) : List Chars :=
  match s with
  | [] => []
  | _ => slGo [] s

/-- Python's `pat in s` substring test. -/
def hasSub (pat : Chars) : Chars → Bool
  | [] => pat.isEmpty
  | s@(_ :: t) => pat.isPrefixOf s || hasSub pat t

/-- `fields[i] if len(fields) > i else ""` — the defensive positional
access idiom used throughout the source. -/
def fld (fields : List Chars) (i : Nat) : Chars := fields.getD i []

def isDig (c : Char) : Bool := '0' ≤ c && c ≤ '9'

def dval (c : Char) : Nat := c.toNat - '0'.toNat

/-- Big-endian decimal value of a digit string, with accumulator. -/
def valAux (a : Nat) (l : Chars) : Nat := l.foldl (fun x c => 10 * x + dval c) a

/-- Decimal digits of `n` (no sign, no leading zeros except for `"0"`),
fuel-based so that it reduces in the kernel. -/
def natCharsAux (fuel n : Nat) : Chars :=
  match fuel with
  | 0 => []
  | f + 1 => if n = 0 then [] else natCharsAux f (n / 10) ++ [Nat.digitChar (n % 10)]

def natToChars (n : Nat) : Chars := if n = 0 then ['0'] else natCharsAux (n + 1) n

/-- Round half to even (the rounding of Python's `round`). -/
def rhe (q : ℚ) : ℤ :=
  let f := ⌊q⌋
  let r := q - (f : ℚ)
  if r < 1/2 then f
  else if 1/2 < r then f + 1
  else if f % 2 = 0 then f else f + 1

/-- Python's `round(x, 2)` on the rational idealisation of floats. -/
def round2 (q : ℚ) : ℚ := ((rhe (100 * q) : ℤ) : ℚ) / 100

/-- Integer-cents rendering used by `fmt2`. -/
def fmt2Cents (m : Nat) : Chars :=
  natToChars (m / 100) ++ '.' :: [Nat.digitChar (m % 100 / 10), Nat.digitChar (m % 100 % 10)]

/-- Python's `f"{x:.2f}"` on the rational idealisation. -/
def fmt2 (q : ℚ) : Chars :=
  if rhe (100 * q) < 0 then '-' :: fmt2Cents (rhe (100 * q)).natAbs
  else fmt2Cents (rhe (100 * q)).toNat

/-- Unsigned part of Python's `float(str)` grammar (digits, optional
point, digits; at least one digit).  Exponents, underscores, `inf`/`nan`
are outside the model. -/
def pyFloatBody (l : Chars) : Option ℚ :=
  if l.dropWhile isDig = [] then
    if l.takeWhile isDig = [] then none
    else some ((valAux 0 (l.takeWhile isDig) : Nat) : ℚ)
  else if (l.dropWhile isDig).headD ' ' = '.' then
    if (l.dropWhile isDig).tail.all isDig &&
        (!(l.takeWhile isDig).isEmpty || !(l.dropWhile isDig).tail.isEmpty) then
      some (((valAux 0 (l.takeWhile isDig) : Nat) : ℚ) +
        ((valAux 0 (l.dropWhile isDig).tail : Nat) : ℚ) /
          (10 : ℚ) ^ (l.dropWhile isDig).tail.length)
    else none
  else none

/-- Python's `float(str)`: raises (`none`) on anything that is not a
(signed) decimal literal. -/
def pyFloat? (s : Chars) : Option ℚ :=
  if pyStrip s = [] then none
  else if (pyStrip s).headD ' ' = '-' then
    (pyFloatBody (pyStrip s).tail).map (fun v => -v)
  else if (pyStrip s).headD ' ' = '+' then pyFloatBody (pyStrip s).tail
  else pyFloatBody (pyStrip s)

-- ---------------------------------------------------------------------
-- Basic lemmas about the string utilities
-- ---------------------------------------------------------------------

theorem pySplit_ne_nil (c : Char) (s : Chars) : pySplit c s ≠ [] := by
  cases s with
  | nil => simp [pySplit]
  | cons a t =>
    simp only [pySplit]
    split <;> simp

theorem pySplit_nil (c : Char) : pySplit c [] = [[]] := rfl

/-- Splitting `xs ++ c :: ys` where `xs` is separator-free peels off `xs`. -/
theorem pySplit_append (c : Char) (xs ys : Chars) (h : ∀ a ∈ xs, a ≠ c) :
    pySplit c (xs ++ c :: ys) = xs :: pySplit c ys := by
  induction xs with
  | nil => simp [pySplit]
  | cons a t ih =>
    have ha : a ≠ c := h a (List.mem_cons_self a t)
    have ht : ∀ b ∈ t, b ≠ c := fun b hb => h b (List.mem_cons_of_mem a hb)
    simp only [List.cons_append, pySplit, if_neg ha, List.append_eq]
    rw [ih ht]
    rfl

/-- Splitting a separator-free string yields a single piece. -/
theorem pySplit_no_sep (c : Char) (xs : Chars) (h : ∀ a ∈ xs, a ≠ c) :
    pySplit c xs = [xs] := by
  induction xs with
  | nil => rfl
  | cons a t ih =>
    have ha : a ≠ c := h a (List.mem_cons_self a t)
    have ht : ∀ b ∈ t, b ≠ c := fun b hb => h b (List.mem_cons_of_mem a hb)
    simp only [pySplit, ih ht, if_neg ha]
    simp

/-- Pieces produced by `pySplit` never contain the separator. -/
theorem pySplit_pieces_no_sep (c : Char) (s : Chars) :
    ∀ p ∈ pySplit c s, c ∉ p := by
  induction s with
  | nil => intro p hp; simp [pySplit] at hp; simp [hp]
  | cons a t ih =>
    intro p hp
    simp only [pySplit] at hp
    by_cases hac : a = c
    · rw [if_pos hac] at hp
      rcases List.mem_cons.mp hp with h | h
      · simp [h]
      · exact ih p h
    · rw [if_neg hac] at hp
      rcases List.mem_cons.mp hp with h | h
      · subst h
        intro hmem
        rcases List.mem_cons.mp hmem with h | h
        · exact hac h.symm
        · have hhd : (pySplit c t).headD [] ∈ pySplit c t := by
            have := pySplit_ne_nil c t
            cases hsp : pySplit c t with
            | nil => exact absurd hsp this
            | cons x xs => simp
          exact ih _ hhd h
      · have : p ∈ pySplit c t := by
          have := pySplit_ne_nil c t
          cases hsp : pySplit c t with
          | nil => exact absurd hsp this
          | cons x xs =>
            rw [hsp] at h
            exact hsp ▸ List.mem_cons_of_mem x h
        exact ih p this

theorem dropWhile_eq_self_of_head {p : Char → Bool} :
    ∀ {s : Chars}, (∀ a, s.headD ' ' = a → s ≠ [] → p a = false) → s.dropWhile p = s := by
  intro s h
  cases s with
  | nil => rfl
  | cons a t =>
    have : p a = false := h a rfl (by simp)
    simp [List.dropWhile, this]

/-- `strip` is the identity on a nonempty string whose first and last
characters are not whitespace. -/
theorem pyStrip_eq_self {s : Chars} (hne : s ≠ [])
    (hh : isPyWs (s.headD ' ') = false) (hl : isPyWs (s.getLastD ' ') = false) :
    pyStrip s = s := by
  unfold pyStrip
  have h1 : s.dropWhile isPyWs = s :=
    dropWhile_eq_self_of_head (fun a ha _ => ha ▸ hh)
  rw [h1]
  have hrev : s.reverse.headD ' ' = s.getLastD ' ' := by
    cases s with
    | nil => rfl
    | cons a t =>
      have : (a :: t).reverse ≠ [] := by simp
      rw [List.getLastD_eq_getLast?]
      cases hrv : (a :: t).reverse with
      | nil => exact absurd hrv this
      | cons b u =>
        have : (a :: t).getLast? = some b := by
          rw [← List.head?_reverse]
          simp [hrv]
        simp [this, hrv]
  have h2 : s.reverse.dropWhile isPyWs = s.reverse := by
    apply dropWhile_eq_self_of_head
    intro a ha _
    rw [← ha, hrev]
    exact hl
  rw [h2, List.reverse_reverse]

theorem getLastD_append (x : Chars) {y : Chars} (hy : y ≠ []) :
    ∀ d, (x ++ y).getLastD d = y.getLastD d := by
  induction x with
  | nil => intro d; rfl
  | cons a t ih =>
    intro d
    rw [List.cons_append, List.getLastD_cons, ih a]
    cases y with
    | nil => exact absurd rfl hy
    | cons b u => rw [List.getLastD_cons, List.getLastD_cons]

theorem headD_append {x : Chars} (hx : x ≠ []) (y : Chars) (d : Char) :
    (x ++ y).headD d = x.headD d := by
  cases x with
  | nil => exact absurd rfl hx
  | cons a t => rfl

-- ---------------------------------------------------------------------
-- Rounding lemmas
-- ---------------------------------------------------------------------

theorem abs_rhe_sub (q : ℚ) : |((rhe q : ℤ) : ℚ) - q| ≤ 1/2 := by
  unfold rhe
  have hfl : (⌊q⌋ : ℚ) ≤ q := Int.floor_le q
  have hfu : q < (⌊q⌋ : ℚ) + 1 := Int.lt_floor_add_one q
  by_cases h1 : q - (⌊q⌋ : ℚ) < 1/2
  · rw [if_pos h1, abs_le]
    constructor <;> linarith
  · rw [if_neg h1]
    by_cases h2 : (1:ℚ)/2 < q - (⌊q⌋ : ℚ)
    · rw [if_pos h2, abs_le]
      push_cast
      constructor <;> linarith
    · rw [if_neg h2]
      have : q - (⌊q⌋ : ℚ) = 1/2 := le_antisymm (not_lt.mp h2) (not_lt.mp h1)
      split <;> rw [abs_le] <;> push_cast <;> constructor <;> linarith

theorem rhe_intCast (n : ℤ) : rhe ((n : ℤ) : ℚ) = n := by
  unfold rhe
  rw [Int.floor_intCast]
  norm_num

theorem rhe_cents (n : ℤ) : rhe (100 * (((n : ℤ) : ℚ) / 100)) = n := by
  have : (100 : ℚ) * ((n : ℚ) / 100) = ((n : ℤ) : ℚ) := by
    field_simp
  rw [this, rhe_intCast]

theorem round2_cents (n : ℤ) : round2 (((n : ℤ) : ℚ) / 100) = ((n : ℤ) : ℚ) / 100 := by
  unfold round2
  rw [rhe_cents]

-- ---------------------------------------------------------------------
-- Digit strings: rendering and re-parsing
-- ---------------------------------------------------------------------

theorem valAux_append (a : Nat) (xs ys : Chars) :
    valAux a (xs ++ ys) = valAux (valAux a xs) ys := by
  unfold valAux
  rw [List.foldl_append]

theorem natCharsAux_mem :
    ∀ (fuel n : Nat), ∀ c ∈ natCharsAux fuel n, ∃ m, m < 10 ∧ c = Nat.digitChar m := by
  intro fuel
  induction fuel with
  | zero => intro n c hc; simp [natCharsAux] at hc
  | succ f ih =>
    intro n c hc
    simp only [natCharsAux] at hc
    by_cases hn : n = 0
    · rw [if_pos hn] at hc; simp at hc
    · rw [if_neg hn] at hc
      rcases List.mem_append.mp hc with h | h
      · exact ih (n / 10) c h
      · have : c = Nat.digitChar (n % 10) := by simpa using h
        exact ⟨n % 10, Nat.mod_lt n (by norm_num), this⟩

theorem natToChars_mem (n : Nat) :
    ∀ c ∈ natToChars n, ∃ m, m < 10 ∧ c = Nat.digitChar m := by
  unfold natToChars
  by_cases hn : n = 0
  · rw [if_pos hn]
    intro c hc
    have : c = '0' := by simpa using hc
    exact ⟨0, by norm_num, this⟩
  · rw [if_neg hn]
    exact natCharsAux_mem (n + 1) n

theorem digitChar_isDig : ∀ m, m < 10 → isDig (Nat.digitChar m) = true := by decide

theorem digitChar_dval : ∀ m, m < 10 → dval (Nat.digitChar m) = m := by decide

theorem natToChars_all_digit (n : Nat) : ∀ c ∈ natToChars n, isDig c = true := by
  intro c hc
  obtain ⟨m, hm, rfl⟩ := natToChars_mem n c hc
  exact digitChar_isDig m hm

theorem natCharsAux_val (a : Nat) :
    ∀ (fuel n : Nat), n ≤ fuel →
      valAux a (natCharsAux fuel n) = a * 10 ^ (natCharsAux fuel n).length + n := by
  intro fuel
  induction fuel generalizing a with
  | zero =>
    intro n hn
    interval_cases n
    simp [natCharsAux, valAux]
  | succ f ih =>
    intro n hn
    by_cases h0 : n = 0
    · subst h0; simp [natCharsAux, valAux]
    · have hstep : natCharsAux (f + 1) n =
          natCharsAux f (n / 10) ++ [Nat.digitChar (n % 10)] := by
        simp [natCharsAux, h0]
      have hdiv : n / 10 ≤ f := by
        have h1 : 1 ≤ n := Nat.one_le_iff_ne_zero.mpr h0
        have : n / 10 < n := Nat.div_lt_self h1 (by norm_num)
        omega
      rw [hstep, valAux_append, ih a (n / 10) hdiv]
      have hd : dval (Nat.digitChar (n % 10)) = n % 10 :=
        digitChar_dval (n % 10) (Nat.mod_lt n (by omega))
      simp only [valAux, List.foldl_cons, List.foldl_nil, List.length_append,
        List.length_cons, List.length_nil, hd]
      ring_nf
      omega

theorem natToChars_val (n : Nat) : valAux 0 (natToChars n) = n := by
  unfold natToChars
  by_cases hn : n = 0
  · rw [if_pos hn, hn]; rfl
  · rw [if_neg hn, natCharsAux_val 0 (n + 1) n (by omega)]
    simp

theorem takeWhile_all_append {p : Char → Bool} {xs : Chars}
    (hxs : ∀ a ∈ xs, p a = true) {y : Char} (hy : p y = false) (ys : Chars) :
    (xs ++ y :: ys).takeWhile p = xs := by
  induction xs with
  | nil => simp [List.takeWhile, hy]
  | cons a t ih =>
    have ha : p a = true := hxs a (List.mem_cons_self a t)
    have ht : ∀ b ∈ t, p b = true := fun b hb => hxs b (List.mem_cons_of_mem a hb)
    simp [List.takeWhile, ha, ih ht]

theorem dropWhile_all_append {p : Char → Bool} {xs : Chars}
    (hxs : ∀ a ∈ xs, p a = true) {y : Char} (hy : p y = false) (ys : Chars) :
    (xs ++ y :: ys).dropWhile p = y :: ys := by
  induction xs with
  | nil => simp [List.dropWhile, hy]
  | cons a t ih =>
    have ha : p a = true := hxs a (List.mem_cons_self a t)
    have ht : ∀ b ∈ t, p b = true := fun b hb => hxs b (List.mem_cons_of_mem a hb)
    simp [List.dropWhile, ha, ih ht]

/-- The character repertoire of `fmt2` output. -/
def numChars : Chars := ['-', '.', '0', '1', '2', '3', '4', '5', '6', '7', '8', '9']

theorem digitChar_mem_numChars : ∀ m, m < 10 → Nat.digitChar m ∈ numChars := by decide

theorem fmt2Cents_mem (m : Nat) : ∀ c ∈ fmt2Cents m, c ∈ numChars := by
  intro c hc
  unfold fmt2Cents at hc
  rcases List.mem_append.mp hc with h | h
  · obtain ⟨k, hk, rfl⟩ := natToChars_mem _ c h
    exact digitChar_mem_numChars k hk
  · rcases List.mem_cons.mp h with h | h
    · simp [h, numChars]
    · rcases List.mem_cons.mp h with h | h
      · exact h ▸ digitChar_mem_numChars _ (Nat.div_lt_of_lt_mul (by omega))
      · have : c = Nat.digitChar (m % 100 % 10) := by simpa using h
        exact this ▸ digitChar_mem_numChars _ (Nat.mod_lt _ (by norm_num))

theorem fmt2_mem (q : ℚ) : ∀ c ∈ fmt2 q, c ∈ numChars := by
  intro c hc
  unfold fmt2 at hc
  split at hc
  · rcases List.mem_cons.mp hc with h | h
    · simp [h, numChars]
    · exact fmt2Cents_mem _ c h
  · exact fmt2Cents_mem _ c hc

theorem numChars_not_ws : ∀ c ∈ numChars, isPyWs c = false := by decide

theorem natToChars_ne_nil (n : Nat) : natToChars n ≠ [] := by
  unfold natToChars
  by_cases hn : n = 0
  · simp [hn]
  · rw [if_neg hn]
    obtain ⟨k, hk⟩ : ∃ k, n = k + 1 := ⟨n - 1, by omega⟩
    subst hk
    simp only [natCharsAux]
    rw [if_neg (by omega : ¬ k + 1 = 0)]
    simp

theorem fmt2Cents_head (m : Nat) :
    (fmt2Cents m).headD ' ' = (natToChars (m / 100)).headD ' ' := by
  unfold fmt2Cents
  exact headD_append (natToChars_ne_nil _) _ ' '

theorem fmt2Cents_last (m : Nat) :
    (fmt2Cents m).getLastD ' ' = Nat.digitChar (m % 100 % 10) := by
  unfold fmt2Cents
  rw [getLastD_append _ (by simp) ' ']
  rfl

theorem headD_mem {l : Chars} (h : l ≠ []) (d : Char) : l.headD d ∈ l := by
  cases l with
  | nil => exact absurd rfl h
  | cons a t => simp

theorem pyStrip_fmt2 (q : ℚ) : pyStrip (fmt2 q) = fmt2 q := by
  have hne : fmt2 q ≠ [] := by
    unfold fmt2
    split
    · simp
    · unfold fmt2Cents
      simp [natToChars_ne_nil]
  apply pyStrip_eq_self hne
  · have : (fmt2 q).headD ' ' ∈ fmt2 q := headD_mem hne ' '
    exact numChars_not_ws _ (fmt2_mem q _ this)
  · have hlast : (fmt2 q).getLastD ' ' = Nat.digitChar ((rhe (100 * q)).natAbs % 100 % 10) ∨
        (fmt2 q).getLastD ' ' = Nat.digitChar ((rhe (100 * q)).toNat % 100 % 10) := by
      unfold fmt2
      split
      · left
        rw [show ('-' :: fmt2Cents (rhe (100 * q)).natAbs) =
            ['-'] ++ fmt2Cents (rhe (100 * q)).natAbs from rfl]
        rw [getLastD_append _ (by unfold fmt2Cents; simp [natToChars_ne_nil]) ' ']
        exact fmt2Cents_last _
      · right; exact fmt2Cents_last _
    rcases hlast with h | h <;> rw [h] <;>
      exact numChars_not_ws _ (digitChar_mem_numChars _ (Nat.mod_lt _ (by norm_num)))

theorem valAux_two_digits (m : Nat) :
    valAux 0 [Nat.digitChar (m % 100 / 10), Nat.digitChar (m % 100 % 10)] = m % 100 := by
  have h1 : dval (Nat.digitChar (m % 100 / 10)) = m % 100 / 10 :=
    digitChar_dval _ (Nat.div_lt_of_lt_mul (by omega))
  have h2 : dval (Nat.digitChar (m % 100 % 10)) = m % 100 % 10 :=
    digitChar_dval _ (Nat.mod_lt _ (by norm_num))
  simp [valAux, h1, h2]
  omega

theorem natToChars_isEmpty (n : Nat) : (natToChars n).isEmpty = false := by
  cases h : natToChars n with
  | nil => exact absurd h (natToChars_ne_nil n)
  | cons a t => rfl

theorem pyFloatBody_dot (l ipt fr : Chars)
    (htake : l.takeWhile isDig = ipt) (hdrop : l.dropWhile isDig = '.' :: fr) :
    pyFloatBody l =
      if fr.all isDig && (!ipt.isEmpty || !fr.isEmpty) then
        some (((valAux 0 ipt : Nat) : ℚ) +
          ((valAux 0 fr : Nat) : ℚ) / (10 : ℚ) ^ fr.length)
      else none := by
  unfold pyFloatBody
  rw [hdrop, htake]
  simp

theorem pyFloatBody_fmt2Cents (m : Nat) :
    pyFloatBody (fmt2Cents m) = some ((m : ℚ) / 100) := by
  have hdig : ∀ a ∈ natToChars (m / 100), isDig a = true := natToChars_all_digit _
  have hdot : isDig '.' = false := by decide
  have htake : (fmt2Cents m).takeWhile isDig = natToChars (m / 100) := by
    unfold fmt2Cents; exact takeWhile_all_append hdig hdot _
  have hdrop : (fmt2Cents m).dropWhile isDig =
      '.' :: [Nat.digitChar (m % 100 / 10), Nat.digitChar (m % 100 % 10)] := by
    unfold fmt2Cents; exact dropWhile_all_append hdig hdot _
  rw [pyFloatBody_dot _ _ _ htake hdrop]
  have hfr : [Nat.digitChar (m % 100 / 10), Nat.digitChar (m % 100 % 10)].all isDig = true := by
    simp [List.all_cons,
      digitChar_isDig _ (Nat.div_lt_of_lt_mul (by omega : m % 100 < 10 * 10)),
      digitChar_isDig _ (Nat.mod_lt _ (by norm_num : (0:Nat) < 10))]
  rw [if_pos (by simp [hfr, natToChars_isEmpty])]
  rw [natToChars_val, valAux_two_digits]
  have hdm : (m / 100) * 100 + m % 100 = m := by omega
  have h100 : ((m / 100 : Nat) : ℚ) * 100 + ((m % 100 : Nat) : ℚ) = (m : ℚ) := by
    exact_mod_cast hdm
  congr 1
  simp only [List.length_cons, List.length_nil]
  field_simp
  linarith [h100]

theorem fmt2Cents_head_not_sign (m : Nat) :
    (fmt2Cents m).headD ' ' ≠ '-' ∧ (fmt2Cents m).headD ' ' ≠ '+' := by
  rw [fmt2Cents_head]
  have hmem : (natToChars (m / 100)).headD ' ' ∈ natToChars (m / 100) :=
    headD_mem (natToChars_ne_nil _) ' '
  obtain ⟨k, hk, he⟩ := natToChars_mem _ _ hmem
  rw [he]
  have hall : ∀ k, k < 10 → Nat.digitChar k ≠ '-' ∧ Nat.digitChar k ≠ '+' := by decide
  exact hall k hk

theorem pyFloat?_of_plain (s : Chars) (hs : pyStrip s = s) (hne : s ≠ [])
    (h1 : s.headD ' ' ≠ '-') (h2 : s.headD ' ' ≠ '+') :
    pyFloat? s = pyFloatBody s := by
  unfold pyFloat?
  rw [hs, if_neg hne, if_neg h1, if_neg h2]

/-- Reparsing a `%.2f` rendering recovers exactly the rounded value. -/
theorem pyFloat?_fmt2 (q : ℚ) : pyFloat? (fmt2 q) = some (round2 q) := by
  unfold round2
  by_cases hneg : rhe (100 * q) < 0
  · have hfq : fmt2 q = '-' :: fmt2Cents (rhe (100 * q)).natAbs := by
      unfold fmt2; rw [if_pos hneg]
    unfold pyFloat?
    rw [pyStrip_fmt2, hfq]
    rw [if_neg (by simp), if_pos (by rfl)]
    show (pyFloatBody (fmt2Cents (rhe (100 * q)).natAbs)).map (fun v => -v) = _
    rw [pyFloatBody_fmt2Cents]
    simp only [Option.map_some']
    congr 1
    rw [Int.cast_natAbs, abs_of_neg hneg]
    push_cast
    ring
  · have hfq : fmt2 q = fmt2Cents (rhe (100 * q)).toNat := by
      unfold fmt2; rw [if_neg hneg]
    have hcast : (((rhe (100 * q)).toNat : Nat) : ℚ) = ((rhe (100 * q) : ℤ) : ℚ) := by
      exact_mod_cast Int.toNat_of_nonneg (not_lt.mp hneg)
    obtain ⟨hh1, hh2⟩ := fmt2Cents_head_not_sign (rhe (100 * q)).toNat
    have hsne : fmt2Cents (rhe (100 * q)).toNat ≠ [] := by
      unfold fmt2Cents; simp [natToChars_ne_nil]
    have := pyFloat?_of_plain (fmt2Cents (rhe (100 * q)).toNat)
      (by rw [← hfq]; exact pyStrip_fmt2 q) hsne hh1 hh2
    rw [hfq, this, pyFloatBody_fmt2Cents, hcast]

-- ---------------------------------------------------------------------
-- `datetime.strptime` for the formats "%Y%m%d%H%M[%S]"
-- ---------------------------------------------------------------------

structure PyDateTime where
  y : Nat
  mo : Nat
  d : Nat
  h : Nat
  mi : Nat
  s : Nat
deriving DecidableEq, Repr

/-- Match exactly one digit satisfying `p` (a 1-wide regex alternative). -/
def md1 (p : Nat → Bool) : Chars → Option (Nat × Chars)
  | a :: t => if isDig a && p (dval a) then some (dval a, t) else none
  | [] => none

/-- Match exactly two digits whose value satisfies `p` (a 2-wide regex
alternative such as `1[0-2]` ⇔ value ∈ [10,12], `0[1-9]` ⇔ value ∈ [1,9]). -/
def md2 (p : Nat → Bool) : Chars → Option (Nat × Chars)
  | a :: b :: t =>
    if isDig a && isDig b && p (10 * dval a + dval b) then
      some (10 * dval a + dval b, t)
    else none
  | _ => none

/-- Match exactly four digits (`%Y` = `\d\d\d\d`). -/
def md4 : Chars → Option (Nat × Chars)
  | a :: b :: c :: d :: t =>
    if isDig a && isDig b && isDig c && isDig d then
      some (1000 * dval a + 100 * dval b + 10 * dval c + dval d, t)
    else none
  | _ => none

/-- CPython `_strptime.TimeRE` alternation lists, in regex order:
`%Y`=`\d{4}`, `%m`=`1[0-2]|0[1-9]|[1-9]`, `%d`=`3[01]|[12]\d|0[1-9]|[1-9]`,
`%H`=`2[0-3]|[0-1]\d|\d`, `%M`=`[0-5]\d|\d`, `%S`=`6[0-1]|[0-5]\d|\d`. -/
def compY : List (Chars → Option (Nat × Chars)) := [md4]

def compMo : List (Chars → Option (Nat × Chars)) :=
  [md2 (fun v => 10 ≤ v && v ≤ 12), md2 (fun v => 1 ≤ v && v ≤ 9), md1 (fun v => 1 ≤ v && v ≤ 9)]

def compD : List (Chars → Option (Nat × Chars)) :=
  [md2 (fun v => 30 ≤ v && v ≤ 31), md2 (fun v => 10 ≤ v && v ≤ 29),
   md2 (fun v => 1 ≤ v && v ≤ 9), md1 (fun v => 1 ≤ v && v ≤ 9)]

def compH : List (Chars → Option (Nat × Chars)) :=
  [md2 (fun v => 20 ≤ v && v ≤ 23), md2 (fun v => v ≤ 19), md1 (fun _ => true)]

def compMin : List (Chars → Option (Nat × Chars)) :=
  [md2 (fun v => v ≤ 59), md1 (fun _ => true)]

def compS : List (Chars → Option (Nat × Chars)) :=
  [md2 (fun v => 60 ≤ v && v ≤ 61), md2 (fun v => v ≤ 59), md1 (fun _ => true)]

/-- Ordered-alternative matching with backtracking: the first component's
alternatives are tried in order, and an alternative is kept only if the
remaining components also match — exactly the backtracking a regex engine
performs on a concatenation of alternations of fixed literal classes.
Fuel-based (structural) so it reduces in the kernel; the fuel passed by
the two `strptime` wrappers strictly dominates the call depth. -/
def seqAltsF : Nat → List (List (Chars → Option (Nat × Chars))) → Chars →
    Option (List Nat × Chars)
  | 0, _, _ => none
  | _ + 1, [], s => some ([], s)
  | _ + 1, [] :: _, _ => none
  | f + 1, (m :: ms) :: rest, s =>
    match m s with
    | some (v, s') =>
      match seqAltsF f rest s' with
      | some (vs, r) => some (v :: vs, r)
      | none => seqAltsF f (ms :: rest) s
    | none => seqAltsF f (ms :: rest) s

/-- Leap-year rule of the proleptic Gregorian calendar (as in `datetime`). -/
def isLeap (y : Nat) : Bool := y % 4 = 0 && (y % 100 ≠ 0 || y % 400 = 0)

def daysInMonth (y mo : Nat) : Nat :=
  if mo = 2 then (if isLeap y then 29 else 28)
  else if mo = 4 || mo = 6 || mo = 9 || mo = 11 then 30
  else 31

/-- The `datetime(...)` constructor's range validation (`ValueError` ↦ `none`). -/
def mkDatetime (y mo d h mi s : Nat) : Option PyDateTime :=
  if 1 ≤ y && y ≤ 9999 && 1 ≤ mo && mo ≤ 12 && 1 ≤ d && d ≤ daysInMonth y mo
      && h ≤ 23 && mi ≤ 59 && s ≤ 59 then
    some ⟨y, mo, d, h, mi, s⟩
  else none

/-- `datetime.strptime(s, "%Y%m%d%H%M%S")`: the regex must consume the whole
string (else "unconverted data remains"), then the values pass through the
`datetime` constructor. -/
def strptimeYmdHMS (s : Chars) : Option PyDateTime :=
  match seqAltsF 100 [compY, compMo, compD, compH, compMin, compS] s with
  | some ([y, mo, d, h, mi, se], []) => mkDatetime y mo d h mi se
  | _ => none

/-- `datetime.strptime(s, "%Y%m%d%H%M")` (seconds default to 0). -/
def strptimeYmdHM (s : Chars) : Option PyDateTime :=
  match seqAltsF 100 [compY, compMo, compD, compH, compMin] s with
  | some ([y, mo, d, h, mi], []) => mkDatetime y mo d h mi 0
  | _ => none

-- ---------------------------------------------------------------------
-- `parse_hl7` and the segment table
-- ---------------------------------------------------------------------

abbrev Seg := List Chars

/-- Python dict from segment name to list of segments, insertion-ordered. -/
abbrev SegTable := List (Chars × List Seg)

def tblInsert : SegTable → Chars → Seg → SegTable
  | [], n, s => [(n, [s])]
  | (k, v) :: t, n, s =>
    if k = n then (k, v ++ [s]) :: t else (k, v) :: tblInsert t n s

def tblGet (t : SegTable) (name : Chars) : Option (List Seg) :=
  (t.find? (fun p => p.1 = name)).map (fun p => p.2)

/-- `parse_hl7`: strip, split lines, strip each line, skip blanks, split on
`|`, group by the first field (`setdefault(name, []).append(parts)`). -/
def parse_hl7 (t : Chars) : SegTable :=
  (pySplitLines (pyStrip t)).foldl
    (fun tbl line =>
      if pyStrip line = [] then tbl
      else tblInsert tbl (fld (pySplit '|' (pyStrip line)) 0) (pySplit '|' (pyStrip line)))
    []

-- ---------------------------------------------------------------------
-- `hl7_to_fhir_patient`
-- ---------------------------------------------------------------------

/-- The fields of the FHIR `Patient` dict that carry message data (the
constant fields `resourceType`/`system` and the list wrappers are part of
the rendering, not of the data; the accessors used downstream are modelled
by `patientBillingId`/`patientIdOpt` below). -/
structure Patient where
  patient_id : Chars
  family : Chars
  given : Chars
  birth_date : Option Chars
  gender : Chars
  line1 : Chars
  city : Chars
  state : Chars
  postal : Chars
deriving DecidableEq, Repr

def hl7_to_fhir_patient (segments : SegTable) : Option Patient :=
  match tblGet segments "PID".data with
  | none => none
  | some pid_list =>
    if pid_list.isEmpty then none
    else
      let pid := pid_list.headD []
      let pid3 := fld pid 3
      let pid3_components := if pid3 ≠ [] then pySplit '^' pid3 else []
      let pid5 := fld pid 5
      let name_components := if pid5 ≠ [] then pySplit '^' pid5 else []
      let birth_raw := fld pid 7
      let gender_raw := fld pid 8
      let addr_raw := fld pid 11
      let addr_comp := if addr_raw ≠ [] then pySplit '^' addr_raw else []
      some {
        patient_id := pid3_components.headD []
        family := fld name_components 0
        given := fld name_components 1
        birth_date :=
          if birth_raw ≠ [] then
            some (birth_raw.take 4 ++ '-' ::
              ((birth_raw.drop 4).take 2 ++ '-' :: (birth_raw.drop 6).take 2))
          else none
        gender :=
          if gender_raw = "M".data then "male".data
          else if gender_raw = "F".data then "female".data
          else "unknown".data
        line1 := fld addr_comp 0
        city := fld addr_comp 2
        state := fld addr_comp 3
        postal := fld addr_comp 4 }

/-- `(patient.get("identifier") or [{}])[0].get("value", "12345")` as used by
`fhir_to_837_claim`: the identifier list is empty exactly when `patient_id`
is empty, in which case the default `"12345"` is taken. -/
def patientBillingId (p : Patient) : Chars :=
  if p.patient_id = [] then "12345".data else p.patient_id

/-- `(patient.get("identifier") or [{}])[0].get("value") or patient.get("id")`
as used by `hl7_to_all` (both give `None` exactly when `patient_id` is empty). -/
def patientIdOpt (p : Patient) : Option Chars :=
  if p.patient_id = [] then none else some p.patient_id

/-- Python truthiness of an optional string. -/
def truthy : Option Chars → Bool
  | some l => !l.isEmpty
  | none => false

-- ---------------------------------------------------------------------
-- `hl7_to_fhir_encounter`
-- ---------------------------------------------------------------------

def joinChar (c : Char) : List Chars → Chars
  | [] => []
  | [x] => x
  | x :: xs => x ++ c :: joinChar c xs

/-- The data-carrying fields of the FHIR `Encounter` dict (`resourceType`,
`status`, the coding `system` and the `location` wrapper are constants of
the rendering).  `period_start` holds the parsed admit `datetime` (the dict
stores its `isoformat()` string). -/
structure Encounter where
  class_code : Chars
  loc_display : Option Chars
  period_start : Option PyDateTime
  subject : Option Chars
deriving DecidableEq, Repr

/-- `hl7_to_fhir_encounter`: `none` when no PV1 segment exists;
`Except.error` when the PV1-44 admit timestamp is at least 12 characters
long but its first 12 characters fail `strptime` — the source does NOT
guard this call, so the `ValueError` escapes the extractor. -/
def hl7_to_fhir_encounter (segments : SegTable) (patient_id : Option Chars) :
    Except PyExc (Option Encounter) :=
  match tblGet segments "PV1".data with
  | none => .ok none
  | some pv1_list =>
    if pv1_list.isEmpty then .ok none
    else
      let pv1 := pv1_list.headD []
      let cls := fld pv1 2
      let class_code :=
        if cls = "I".data then "IMP".data
        else if cls = "O".data then "AMB".data
        else if cls = "E".data then "EMER".data
        else "AMB".data
      let loc_raw := fld pv1 3
      let loc_comp := if loc_raw ≠ [] then pySplit '^' loc_raw else []
      let loc_display := if loc_comp ≠ [] then some (joinChar '^' loc_comp) else none
      let subject :=
        if truthy patient_id then some ("Patient/".data ++ patient_id.getD [])
        else none
      let admit_raw := fld pv1 44
      if admit_raw ≠ [] ∧ 12 ≤ admit_raw.length then
        match strptimeYmdHM (admit_raw.take 12) with
        | none => .error .valueError
        | some dt =>
          .ok (some { class_code := class_code, loc_display := loc_display,
                      period_start := some dt, subject := subject })
      else
        .ok (some { class_code := class_code, loc_display := loc_display,
                    period_start := none, subject := subject })

-- ---------------------------------------------------------------------
-- `fhir_to_837_claim`
-- ---------------------------------------------------------------------

def joinNl : List Chars → Chars
  | [] => []
  | [x] => x
  | x :: xs => x ++ '\n' :: joinNl xs

/-- `fhir_to_837_claim` (the `encounter` argument is accepted but unused by
the source body; `total = 150` is rendered as the literal `*150*`). -/
def fhir_to_837_claim (patient : Patient) (encounter : Encounter) : Chars :=
  joinNl [
    "ISA*00*          *00*          *ZZ*SENDERID      *ZZ*RECEIVERID    *250101*1200*^*00501*000000001*0*T*:~".data,
    "GS*HC*SENDERID*RECEIVERID*20250101*1200*1*X*005010X222A1~".data,
    "ST*837*0001*005010X222A1~".data,
    "BHT*0019*00*0123*20250102*1200*CH~".data,
    "NM1*85*2*GOOD HEALTH CLINIC*****XX*1234567893~".data,
    "N3*123 MAIN ST~".data,
    "N4*DALLAS*TX*75001~".data,
    "HL*1**20*1~".data,
    "HL*2*1*22*0~".data,
    "SBR*P*18*******MC~".data,
    "NM1*IL*1*".data ++ patient.family ++ "*".data ++ patient.given ++
      "****MI*".data ++ patientBillingId patient ++ "~".data,
    "N3*".data ++ patient.line1 ++ "~".data,
    "N4*".data ++ patient.city ++ "*".data ++ patient.state ++ "*".data ++
      patient.postal ++ "~".data,
    "CLM*".data ++ patientBillingId patient ++ "*150***11:B:1*Y*A*Y*Y~".data,
    "LX*1~".data,
    "SV1*HC:99213*150*UN*1***1~".data,
    "SE*12*0001~".data,
    "GE*1*1~".data,
    "IEA*1*000000001~".data ]

-- ---------------------------------------------------------------------
-- `parse_837_basic`, `generate_835_from_837`, `reconcile_837_835`
-- ---------------------------------------------------------------------

structure ClaimInfo where
  claim_id : Chars
  billed_total : ℚ
deriving DecidableEq, Repr

/-- `[s.strip() for s in x12.replace("\n", "").split("~") if s.strip()]`. -/
def x12Segments (s : Chars) : List Chars :=
  ((pySplit '~' (removeNl s)).map pyStrip).filter (fun p => p ≠ [])

/-- `parse_837_basic`: `none` models the `{}` returns; the
`float(parts[2])` call can raise.  (`len(parts) > 2 and parts[2]` collapses
to `fld parts 2 ≠ []` because out-of-range access yields `""`.) -/
def parse_837_basic (x12 : Chars) : Except PyExc (Option ClaimInfo) :=
  if x12 = [] then .ok none
  else
    match (x12Segments x12).find? (fun s => "CLM*".data.isPrefixOf s) with
    | none => .ok none
    | some clm =>
      if fld (pySplit '*' clm) 2 = [] then
        .ok (some ⟨fld (pySplit '*' clm) 1, 0⟩)
      else
        match pyFloat? (fld (pySplit '*' clm) 2) with
        | none => .error .valueError
        | some b => .ok (some ⟨fld (pySplit '*' clm) 1, b⟩)

/-- `paid = round(billed_total * 0.8, 2)` (the float literal `0.8`
idealised as `4/5`). -/
def remitPaid (billed : ℚ) : ℚ := round2 (billed * (4 / 5))

/-- `patient_resp = round(billed_total - paid, 2)`. -/
def remitResp (billed : ℚ) : ℚ := round2 (billed - remitPaid billed)

/-- `info.get("claim_id", "UNKNOWN")`. -/
def genClaimId : Option ClaimInfo → Chars
  | none => "UNKNOWN".data
  | some i => i.claim_id

/-- `float(info.get("billed_total", 0.0))`. -/
def genBilled : Option ClaimInfo → ℚ
  | none => 0
  | some i => i.billed_total

def seg835head : List Chars := [
  "ISA*00*          *00*          *ZZ*SENDERID      *ZZ*RECEIVERID    *250101*1200*^*00501*000000905*0*T*:~".data,
  "GS*HP*SENDERID*RECEIVERID*20250101*1200*1*X*005010X221A1~".data,
  "ST*835*0001~".data,
  "BPR*I*0*C*CHK************20250101~".data,
  "TRN*1*12345*9876543210~".data,
  "N1*PR*DEMO PAYER*PI*99999~".data,
  "N1*PE*GOOD HEALTH CLINIC*XX*1234567893~".data ]

def seg835tail : List Chars := ["SE*9*0001~".data, "GE*1*1~".data, "IEA*1*000000905~".data]

/-- `CLP*{claim_id}*{status}*{billed:.2f}*{paid:.2f}*{resp:.2f}*MC*PCN123*11~`. -/
def clpLine (claim_id st : Chars) (billed paid resp : ℚ) : Chars :=
  "CLP*".data ++ claim_id ++ "*".data ++ st ++ "*".data ++ fmt2 billed ++
    "*".data ++ fmt2 paid ++ "*".data ++ fmt2 resp ++ "*MC*PCN123*11~".data

/-- Segment assembly of `generate_835_from_837` after the outcome has been
normalised: the `paid` branch appends the `CAS*PR` line only when
`patient_resp > 0`; the `denied` branch always appends `CAS*CO*45`. -/
def build_835 (claim_id : Chars) (billed : ℚ) (oc : Chars) : Chars :=
  if oc = "paid".data then
    joinNl (seg835head ++
      [clpLine claim_id "1".data billed (remitPaid billed) (remitResp billed)] ++
      (if remitResp billed > 0 then
        ["CAS*PR*1*".data ++ fmt2 (remitResp billed) ++ "~".data] else []) ++
      seg835tail)
  else
    joinNl (seg835head ++
      [clpLine claim_id "4".data billed 0 0] ++
      ["CAS*CO*45*".data ++ fmt2 billed ++ "~".data] ++
      seg835tail)

/-- `generate_835_from_837` (`outcome not in ("paid", "denied")` is coerced
to `"paid"`); raises exactly when `parse_837_basic` raises. -/
def generate_835_from_837 (x12_837 : Chars) (outcome : Chars) : Except PyExc Chars := do
  let info ← parse_837_basic x12_837
  let oc := if outcome ≠ "paid".data ∧ outcome ≠ "denied".data then "paid".data else outcome
  return build_835 (genClaimId info) (genBilled info) oc

structure ReconSummary where
  claim_id : Chars
  status : Chars
  billed_total : ℚ
  paid_amount : ℚ
  patient_responsibility : ℚ
  adjustments : List Chars
  balance_due_to_provider : ℚ
deriving DecidableEq, Repr

/-- `float(parts[k]) if len(parts) > k and parts[k] else default` — used for
the CLP money fields of `reconcile_837_835`; may raise. -/
def floatOrD (s : Chars) (d : ℚ) : Except PyExc ℚ :=
  if s = [] then .ok d
  else
    match pyFloat? s with
    | none => .error .valueError
    | some v => .ok v

def reconcile_837_835 (x12_837 x12_835 : Chars) : Except PyExc ReconSummary := do
  let s_info ← parse_837_basic x12_837
  let claim_id := match s_info with | none => [] | some i => i.claim_id
  let billed0 := genBilled s_info
  if x12_835 = [] then
    return { claim_id := claim_id, status := "unknown".data,
             billed_total := round2 billed0, paid_amount := round2 0,
             patient_responsibility := round2 0, adjustments := [],
             balance_due_to_provider := round2 (max (billed0 - 0 - 0) 0) }
  else
    let segs := x12Segments x12_835
    let adjustments := segs.filter (fun s => "CAS*".data.isPrefixOf s)
    match segs.find? (fun s => "CLP*".data.isPrefixOf s) with
    | none =>
      return { claim_id := claim_id, status := "unknown".data,
               billed_total := round2 billed0, paid_amount := round2 0,
               patient_responsibility := round2 0, adjustments := adjustments,
               balance_due_to_provider := round2 (max (billed0 - 0 - 0) 0) }
    | some clp =>
      let parts := pySplit '*' clp
      let status_code := fld parts 2
      let billed ← floatOrD (fld parts 3) billed0
      let paid ← floatOrD (fld parts 4) 0
      let patient_resp ← floatOrD (fld parts 5) 0
      let status :=
        if status_code = "1".data then "paid".data
        else if status_code = "4".data then "denied".data
        else "other".data
      return { claim_id := claim_id, status := status,
               billed_total := round2 billed, paid_amount := round2 paid,
               patient_responsibility := round2 patient_resp,
               adjustments := adjustments,
               balance_due_to_provider := round2 (max (billed - paid - patient_resp) 0) }

-- ---------------------------------------------------------------------
-- `extract_hl7_summary`
-- ---------------------------------------------------------------------

structure SummaryRec where
  message_type : Chars
  patient_id : Chars
  patient_class : Chars
  encounter_present : Bool
  event_time : Option PyDateTime
deriving DecidableEq, Repr

def sumInit : SummaryRec :=
  { message_type := [], patient_id := [], patient_class := [],
    encounter_present := false, event_time := none }

/-- One iteration of the `extract_hl7_summary` line loop.  Both `strptime`
calls are wrapped in `try/except ValueError: pass`, so a failed parse keeps
the previous `event_time`. -/
def sumStep (s : SummaryRec) (line : Chars) : SummaryRec :=
  let fields := pySplit '|' line
  let segment := fld fields 0
  if segment = "MSH".data ∧ 8 < fields.length then
    let s1 := { s with message_type := fld fields 8 }
    if 6 < fields.length ∧ fld fields 6 ≠ [] then
      match strptimeYmdHMS (fld fields 6) with
      | some dt => { s1 with event_time := some dt }
      | none => s1
    else s1
  else if segment = "PID".data then
    if 3 < fields.length then { s with patient_id := fld fields 3 } else s
  else if segment = "PV1".data then
    let s1 := { s with encounter_present := true }
    let s2 := if 2 < fields.length then { s1 with patient_class := fld fields 2 } else s1
    if 44 < fields.length ∧ fld fields 44 ≠ [] then
      match strptimeYmdHMS (fld fields 44) with
      | some dt => { s2 with event_time := some dt }
      | none => s2
    else s2
  else s

/-- `extract_hl7_summary`: normalise line endings, drop blank lines, scan
every line in order.  Total — the extractor never raises. -/
def extract_hl7_summary (hl7_text : Chars) : SummaryRec :=
  if hl7_text = [] then sumInit
  else
    ((pySplit '\n' (normNl hl7_text)).filter (fun l => pyStrip l ≠ [])).foldl sumStep sumInit

-- ---------------------------------------------------------------------
-- `validate_hl7_message`
-- ---------------------------------------------------------------------

/-- `msh = (segments.get("MSH") or [["MSH"]])[0]` in `validate_hl7_message`. -/
def vMsh (hl7_text : Chars) : Seg :=
  match tblGet (parse_hl7 hl7_text) "MSH".data with
  | some l => if l.isEmpty then ["MSH".data] else l.headD []
  | none => ["MSH".data]

def validate_hl7_message (hl7_text : Chars) : List Chars × List Chars :=
  if !("MSH".data.isPrefixOf (pyStrip hl7_text)) then
    (["Missing MSH segment (message must start with MSH)".data], [])
  else
    let msg_type := fld (vMsh hl7_text) 8
    let errors0 := if msg_type = [] then ["Missing MSH-9 (message type)".data] else []
    if "ADT".data.isPrefixOf msg_type then
      let pidErrs :=
        match tblGet (parse_hl7 hl7_text) "PID".data with
        | none => ["ADT requires PID segment".data]
        | some pid_list =>
          if fld (pid_list.headD []) 3 = [] then
            ["Missing PID-3 (Patient Identifier)".data]
          else []
      let pv1Warns :=
        if (tblGet (parse_hl7 hl7_text) "PV1".data).isNone then
          ["Missing PV1 segment (Encounter will not be generated)".data]
        else []
      (errors0 ++ pidErrs, pv1Warns)
    else (errors0, [])

-- ---------------------------------------------------------------------
-- `hl7_oru_to_fhir` (ORU^R01 branch)
-- ---------------------------------------------------------------------

/-- The `pid` dict of `hl7_oru_to_fhir` (name subdict flattened). -/
structure OruPid where
  id : Chars
  family : Chars
  given : Chars
  dob : Chars
  sex : Chars
deriving DecidableEq, Repr

structure OruObr where
  id : Chars
  code : Chars
  desc : Chars
  date : Chars
deriving DecidableEq, Repr

/-- One `obx` dict; `abnormal` is `None` (not `""`) when field 8 is absent —
the one absent-field asymmetry of the source. -/
structure OruObx where
  id : Chars
  typ : Chars
  code : Chars
  desc : Chars
  value : Chars
  unit : Chars
  ref_range : Chars
  abnormal : Option Chars
deriving DecidableEq, Repr

structure Observation where
  id : Chars
  code : Chars
  display : Chars
  valueString : Chars
  note : Option Chars
  subject : Option Chars
  effectiveDateTime : Option Chars
deriving DecidableEq, Repr

structure DiagReport where
  code : Option Chars
  display : Option Chars
  result_refs : List Chars
  subject : Option Chars
  effectiveDateTime : Option Chars
deriving DecidableEq, Repr

structure OruResult where
  message_type : Chars
  raw_hl7 : Chars
  patient_id : Option Chars
  report : DiagReport
  observations : List Observation
deriving DecidableEq, Repr

def oruPidOfFields (fields : List Chars) : OruPid :=
  { id := fld fields 3
    family := if fld fields 5 ≠ [] then fld (pySplit '^' (fld fields 5)) 0 else []
    given := if fld fields 5 ≠ [] then fld (pySplit '^' (fld fields 5)) 1 else []
    dob := fld fields 7
    sex := fld fields 8 }

def oruObrOfFields (fields : List Chars) : OruObr :=
  { id := fld fields 3
    code := if fld fields 4 ≠ [] then fld (pySplit '^' (fld fields 4)) 0 else []
    desc := if fld fields 4 ≠ [] then fld (pySplit '^' (fld fields 4)) 1 else []
    date := fld fields 7 }

def oruObxOfFields (fields : List Chars) : OruObx :=
  { id := fld fields 1
    typ := fld fields 2
    code := if fld fields 3 ≠ [] then fld (pySplit '^' (fld fields 3)) 0 else []
    desc := if fld fields 3 ≠ [] then fld (pySplit '^' (fld fields 3)) 1 else []
    value := fld fields 5
    unit := fld fields 6
    ref_range := fld fields 7
    abnormal := if 8 < fields.length then some (fld fields 8) else none }

/-- The PID/OBR/OBX scan: last PID and last OBR win (the dicts are
reassigned on every match), all OBX segments are collected in order. -/
def oruScan (lines : List Chars) : Option OruPid × Option OruObr × List OruObx :=
  lines.foldl
    (fun acc seg =>
      let fields := pySplit '|' seg
      let acc1 := if "PID".data.isPrefixOf seg then
          (some (oruPidOfFields fields), acc.2.1, acc.2.2) else acc
      let acc2 := if "OBR".data.isPrefixOf seg then
          (acc1.1, some (oruObrOfFields fields), acc1.2.2) else acc1
      if "OBX".data.isPrefixOf seg then
        (acc2.1, acc2.2.1, acc2.2.2 ++ [oruObxOfFields fields])
      else acc2)
    (none, none, [])

def oruMsgType (lines : List Chars) : Chars :=
  match lines.find? (fun l => "MSH".data.isPrefixOf l) with
  | none => "ORU^R01".data
  | some seg =>
    if 8 < (pySplit '|' seg).length ∧ fld (pySplit '|' seg) 8 ≠ [] then
      fld (pySplit '|' seg) 8
    else "ORU^R01".data

def oruObservation (patient_id : Option Chars) (obr : Option OruObr)
    (idx : Nat) (obx : OruObx) : Observation :=
  { id := "obx-".data ++ natToChars idx
    code := obx.code
    display := obx.desc
    valueString := obx.value
    note :=
      if obx.unit ≠ [] ∨ obx.ref_range ≠ [] then
        some ("Unit: ".data ++ obx.unit ++ "  RefRange: ".data ++ obx.ref_range)
      else none
    subject :=
      if truthy patient_id then some ("Patient/".data ++ patient_id.getD []) else none
    effectiveDateTime :=
      match obr with
      | some o => if o.date ≠ [] then some o.date else none
      | none => none }

def hl7_oru_to_fhir (hl7_text : Chars) : OruResult :=
  let segments_raw :=
    ((pySplitLines (pyStrip hl7_text)).map pyStrip).filter (fun l => l ≠ [])
  let msg_type := oruMsgType segments_raw
  match oruScan segments_raw with
  | (pid, obr, obx_list) =>
    let patient_id := pid.map (fun p => p.id)
    let observations :=
      (List.range obx_list.length).zip obx_list |>.map
        (fun p => oruObservation patient_id obr (p.1 + 1) p.2)
    let report : DiagReport :=
      { code := obr.map (fun o => o.code)
        display := obr.map (fun o => o.desc)
        result_refs :=
          (List.range observations.length).map
            (fun i => "Observation/obx-".data ++ natToChars (i + 1))
        subject :=
          if truthy patient_id then some ("Patient/".data ++ patient_id.getD []) else none
        effectiveDateTime :=
          match obr with
          | some o => if o.date ≠ [] then some o.date else none
          | none => none }
    { message_type := msg_type, raw_hl7 := hl7_text, patient_id := patient_id,
      report := report, observations := observations }

-- ---------------------------------------------------------------------
-- `hl7_to_all`
-- ---------------------------------------------------------------------

/-- The result dict shapes of `hl7_to_all`: the "unable to determine type"
error dict, the ADT payload dict (where `patient = none` models the falsy
`{}`), the ORU payload, and the unsupported-type error dict. -/
inductive HL7All where
  | errNoType (err raw : Chars)
  | adt (message_type raw : Chars) (patient : Option Patient)
      (encounter : Option Encounter) (x12_837 x12_835 : Option Chars)
      (claim_reconciliation : Option ReconSummary)
  | oru (r : OruResult)
  | unsupported (err message_type raw : Chars)
deriving DecidableEq, Repr

/-- `msg_type` extraction of `hl7_to_all`: the first line that starts with
`"MSH"` (a prefix test, so e.g. an `MSHX` line is also taken); `None` when
that line has no field 8. -/
def allMsgType (hl7_text : Chars) : Option Chars :=
  match (pySplit '\n' (pyStrip hl7_text)).find? (fun l => "MSH".data.isPrefixOf l) with
  | none => none
  | some seg =>
    if 8 < (pySplit '|' seg).length then some (fld (pySplit '|' seg) 8) else none

def hl7_to_all (hl7_text : Chars) : Except PyExc HL7All :=
  if !truthy (allMsgType hl7_text) then
    .ok (.errNoType "Unable to determine HL7 message type (MSH-9 missing).".data hl7_text)
  else
    let mt := (allMsgType hl7_text).getD []
    if "ADT".data.isPrefixOf mt then do
      let segments := parse_hl7 hl7_text
      let patient := hl7_to_fhir_patient segments
      let patient_id := match patient with | some p => patientIdOpt p | none => none
      let encounter ← hl7_to_fhir_encounter segments patient_id
      match patient, encounter with
      | some p, some e => do
        let x12_837 := fhir_to_837_claim p e
        let x12_835 ← generate_835_from_837 x12_837 "paid".data
        let recon ← reconcile_837_835 x12_837 x12_835
        return .adt mt hl7_text patient encounter (some x12_837) (some x12_835) (some recon)
      | _, _ => return .adt mt hl7_text patient encounter none none none
    else if "ORU".data.isPrefixOf mt then
      .ok (.oru (hl7_oru_to_fhir hl7_text))
    else
      .ok (.unsupported ("Unsupported HL7 message type: ".data ++ mt) mt hl7_text)

-- ---------------------------------------------------------------------
-- `logtrace/services.py`: the trace ingest engine
-- ---------------------------------------------------------------------

inductive InputKind where
  | HL7
  | JSON
  | EDI
  | OTHER
deriving DecidableEq, Repr

def inputKindStr : InputKind → Chars
  | .HL7 => "HL7".data
  | .JSON => "JSON".data
  | .EDI => "EDI".data
  | .OTHER => "OTHER".data

/-- `_guess_input_type`. -/
def guess_input_type (raw : Chars) (declared : Option Chars) : InputKind :=
  if declared = some "HL7".data then .HL7
  else if declared = some "JSON".data then .JSON
  else if declared = some "EDI".data then .EDI
  else if "\x7b".data.isPrefixOf (pyStrip raw) ∨ "[".data.isPrefixOf (pyStrip raw) then .JSON
  else if hasSub "MSH|".data raw then .HL7
  else if "ISA".data.isPrefixOf (pyStrip raw) ∨ hasSub "*00*".data (pyStrip raw) then .EDI
  else .OTHER

inductive StepStatus where
  | ok
  | warn
  | error
deriving DecidableEq, Repr

/-- A `StepResult` (the structured `details` payloads — preview echoes and
error dumps — are carried alongside in `parsed_preview` and are not
examined by anything modelled here). -/
structure StepResult where
  step_name : Chars
  status : StepStatus
  message : Chars
deriving DecidableEq, Repr

/-- Outcome of the external `json.loads` collaborator: a dict (its key
list), a sequence (its length), or any other value (on which the source's
`len(obj)` raises `TypeError`, caught by the preview `except`). -/
inductive JsonVal where
  | dict (keys : List Chars)
  | seq (n : Nat)
  | scalar
deriving DecidableEq, Repr

/-- The `preview` dicts produced by `_parse_preview`, one constructor per
shape; `exc` is the `except`-branch preview
`{"type": input_type, "message_type": "", "warnings": ["Preview parse failed"]}`. -/
inductive Preview where
  | json (keys : List Chars)
  | jsonList (n : Nat)
  | hl7 (message_type sending_app sending_facility receiving_app
      receiving_facility message_control_id patient_id dob : Chars)
      (warnings : List Chars)
  | edi (has_ISA : Bool) (len : Nat)
  | other (len : Nat)
  | exc (typ : InputKind)
deriving DecidableEq, Repr

/-- `preview.get("type")`. -/
def previewType : Preview → Chars
  | .json _ => "JSON".data
  | .jsonList _ => "JSON".data
  | .hl7 _ _ _ _ _ _ _ _ _ => "HL7".data
  | .edi _ _ => "EDI".data
  | .other _ => "OTHER".data
  | .exc t => inputKindStr t

/-- `preview.get("warnings") or []`. -/
def previewWarnings : Preview → List Chars
  | .hl7 _ _ _ _ _ _ _ _ w => w
  | .exc _ => ["Preview parse failed".data]
  | _ => []

/-- `preview.get("message_type", "")` / `(preview or {}).get("message_type", "")`. -/
def previewMsgType : Preview → Chars
  | .hl7 mt _ _ _ _ _ _ _ _ => mt
  | _ => []

/-- `preview.get("sending_app")` (empty when absent). -/
def previewSendingApp : Preview → Chars
  | .hl7 _ sa _ _ _ _ _ _ _ => sa
  | _ => []

def previewSendingFac : Preview → Chars
  | .hl7 _ _ sf _ _ _ _ _ _ => sf
  | _ => []

/-- `_parse_preview`, parameterised by the `json.loads` collaborator. -/
def parse_preview (jsonLoads : Chars → Except Unit JsonVal) (it : InputKind)
    (raw : Chars) : Preview × List StepResult :=
  match it with
  | .JSON =>
    (match jsonLoads raw with
     | .ok (.dict keys) =>
       (.json (keys.take 20), [⟨"parse".data, .ok, "JSON parsed".data⟩])
     | .ok (.seq n) =>
       (.jsonList n, [⟨"parse".data, .ok, "JSON parsed".data⟩])
     | .ok .scalar =>
       (.exc .JSON, [⟨"parse".data, .error, "Parsing failed".data⟩])
     | .error _ =>
       (.exc .JSON, [⟨"parse".data, .error, "Parsing failed".data⟩]))
  | .HL7 =>
    let msh_line := ((pySplitLines raw).find? (fun l => "MSH|".data.isPrefixOf l)).getD []
    let msh_parts := if msh_line ≠ [] then pySplit '|' msh_line else []
    let pid_line := ((pySplitLines raw).find? (fun l => "PID|".data.isPrefixOf l)).getD []
    let pid_parts := if pid_line ≠ [] then pySplit '|' pid_line else []
    let patient_id := fld pid_parts 3
    let dob := fld pid_parts 7
    let warnings :=
      (if pyStrip patient_id = [] then ["Missing PID-3 Patient Identifier".data] else []) ++
      (if dob ≠ [] ∧ (dob.length ≠ 8 ∨ ¬ dob.all isDig) then
        ["Invalid PID-7 DOB format (expected YYYYMMDD)".data] else [])
    (.hl7 (fld msh_parts 8) (fld msh_parts 2) (fld msh_parts 3) (fld msh_parts 4)
        (fld msh_parts 5) (fld msh_parts 9) patient_id dob warnings,
      [⟨"parse".data, .ok, "HL7 preview extracted (MSH/PID)".data⟩])
  | .EDI =>
    (.edi ("ISA".data.isPrefixOf (pyStrip raw)) raw.length,
      [⟨"parse".data, .ok, "EDI envelope preview extracted".data⟩])
  | .OTHER =>
    (.other raw.length, [⟨"parse".data, .warn, "Unknown input type; stored as raw".data⟩])

/-- `_validate`: one aggregated step, `error` iff any check failed. -/
def trace_validate (preview : Preview) (it : InputKind) (raw : Chars) : List StepResult :=
  let errors :=
    (if it = .HL7 ∧ ¬ hasSub "MSH|".data raw then ["Missing MSH segment".data] else []) ++
    (if it = .JSON ∧ previewType preview ≠ "JSON".data then
      ["JSON preview missing or invalid (parse likely failed)".data] else []) ++
    (if it = .EDI ∧ ¬ ("ISA".data.isPrefixOf (pyStrip raw)) then
      ["Missing ISA segment".data] else [])
  if errors ≠ [] then [⟨"validate".data, .error, "Validation errors found".data⟩]
  else [⟨"validate".data, .ok, "Validation passed".data⟩]

inductive LogStatus where
  | received
  | processed
  | failed
deriving DecidableEq, Repr

def logStatusStr : LogStatus → Chars
  | .received => "RECEIVED".data
  | .processed => "PROCESSED".data
  | .failed => "FAILED".data

/-- `_build_summary`. -/
def build_summary (it : InputKind) (preview : Preview) (st : LogStatus)
    (error_count : Nat) : Chars :=
  let base := inputKindStr it ++ " ".data ++ logStatusStr st
  let base :=
    if it = .HL7 ∧ previewMsgType preview ≠ [] then
      base ++ " (".data ++ previewMsgType preview ++ ")".data
    else base
  if error_count ≠ 0 then
    base ++ " - ".data ++ natToChars error_count ++ " error(s)".data
  else base

/-- A persisted `TraceStep` row (`message` truncated to 255 characters). -/
structure PStep where
  sequence : Nat
  step_name : Chars
  status : StepStatus
  message : Chars
deriving DecidableEq, Repr

/-- The final `TraceLog` row (its random `trace_id` and wall-clock
`duration_ms` are nondeterministic collaborators, outside the model). -/
structure TraceLogR where
  input_type : InputKind
  output_type : Chars
  raw_payload : Chars
  status : LogStatus
  summary : Chars
  error_count : Nat
  steps : List PStep
  parsed_preview : Preview
  meta : List (Chars × Chars)
deriving DecidableEq, Repr

def metaGet (m : List (Chars × Chars)) (k : Chars) : Option Chars :=
  (m.find? (fun p => p.1 = k)).map (fun p => p.2)

def metaSet (m : List (Chars × Chars)) (k v : Chars) : List (Chars × Chars) :=
  if (m.find? (fun p => p.1 = k)).isSome then
    m.map (fun p => if p.1 = k then (k, v) else p)
  else m ++ [(k, v)]

def toLowerChars (s : Chars) : Chars := s.map Char.toLower

/-- Steps 6 of `ingest_payload`: meta normalisation. -/
def normalizeMeta (meta : List (Chars × Chars)) (it : InputKind) (preview : Preview) :
    List (Chars × Chars) :=
  let raw_source := pyStrip
    (if truthy (metaGet meta "source_system".data) then (metaGet meta "source_system".data).getD []
     else if truthy (metaGet meta "source".data) then (metaGet meta "source".data).getD []
     else [])
  let sending_app := if it = .HL7 then pyStrip (previewSendingApp preview) else []
  let sending_fac := if it = .HL7 then pyStrip (previewSendingFac preview) else []
  let derived_source :=
    if sending_app ≠ [] ∨ sending_fac ≠ [] then
      (if sending_app ≠ [] then sending_app else "UNKNOWN_APP".data) ++ ":".data ++
        (if sending_fac ≠ [] then sending_fac else "UNKNOWN_FAC".data)
    else []
  let m1 :=
    if raw_source = [] ∨ toLowerChars raw_source = "trace_ui".data ∨
        toLowerChars raw_source = "ui".data ∨ toLowerChars raw_source = "web".data then
      metaSet meta "source_system".data
        (if derived_source ≠ [] then derived_source else "unknown".data)
    else metaSet meta "source_system".data raw_source
  if it = .HL7 ∧ previewMsgType preview ≠ [] ∧ (metaGet m1 "message_type".data).isNone then
    metaSet m1 "message_type".data (previewMsgType preview)
  else m1

/-- `ingest_payload`, parameterised by the `json.loads` collaborator.  The
ORM writes are modelled by the returned row values: `steps` carries the
persisted step rows in creation order with their sequence numbers. -/
def ingest_payload (jsonLoads : Chars → Except Unit JsonVal) (raw_payload : Chars)
    (declared_input_type : Option Chars) (output_type : Chars)
    (meta : List (Chars × Chars)) : TraceLogR :=
  let it := guess_input_type raw_payload declared_input_type
  let pv := parse_preview jsonLoads it raw_payload
  let warnSteps :=
    if it = .HL7 then
      (previewWarnings pv.1).map
        (fun w => (⟨"validate".data, .warn, w⟩ : StepResult))
    else []
  let pre := pv.2 ++ warnSteps ++ trace_validate pv.1 it raw_payload
  let anyErr := pre.any (fun s => s.status = .error)
  let transformStep : StepResult :=
    if anyErr then ⟨"transform".data, .warn, "Transform skipped due to prior errors".data⟩
    else ⟨"transform".data, .ok, "Transform planned (MVP)".data⟩
  let status := if anyErr then LogStatus.failed else LogStatus.processed
  let all_steps := pre ++ [transformStep]
  let steps :=
    ((List.range all_steps.length).zip all_steps).map
      (fun p => (⟨p.1 + 1, p.2.step_name, p.2.status, p.2.message.take 255⟩ : PStep))
  let error_count := (all_steps.filter (fun s => s.status = .error)).length
  { input_type := it, output_type := output_type, raw_payload := raw_payload,
    status := status,
    summary := build_summary it pv.1 status error_count,
    error_count := error_count, steps := steps, parsed_preview := pv.1,
    meta := normalizeMeta meta it pv.1 }

-- ---------------------------------------------------------------------
-- Pipeline lemmas: what reconcile sees of a generated 835
-- ---------------------------------------------------------------------

theorem fld_mem_or_nil (l : List Chars) (i : Nat) : fld l i ∈ l ∨ fld l i = [] := by
  unfold fld
  rcases Nat.lt_or_ge i l.length with h | h
  · left
    rw [List.getD_eq_getElem l [] h]
    exact List.getElem_mem h
  · right
    exact List.getD_eq_default l [] h

theorem pySplit_piece_subset (c : Char) (s : Chars) :
    ∀ p ∈ pySplit c s, ∀ a ∈ p, a ∈ s := by
  induction s with
  | nil =>
    intro p hp a ha
    simp [pySplit] at hp
    subst hp
    simp at ha
  | cons x t ih =>
    intro p hp a ha
    simp only [pySplit] at hp
    by_cases hxc : x = c
    · rw [if_pos hxc] at hp
      rcases List.mem_cons.mp hp with h | h
      · subst h; simp at ha
      · exact List.mem_cons_of_mem x (ih p h a ha)
    · rw [if_neg hxc] at hp
      have hne := pySplit_ne_nil c t
      cases hsp : pySplit c t with
      | nil => exact absurd hsp hne
      | cons q qs =>
        rw [hsp] at hp
        simp only [List.headD_cons, List.tail_cons] at hp
        rcases List.mem_cons.mp hp with h | h
        · subst h
          rcases List.mem_cons.mp ha with h | h
          · exact h ▸ List.mem_cons_self x t
          · exact List.mem_cons_of_mem x
              (ih q (hsp ▸ List.mem_cons_self q qs) a h)
        · exact List.mem_cons_of_mem x
            (ih p (hsp ▸ List.mem_cons_of_mem q h) a ha)

theorem pyStrip_subset (s : Chars) : ∀ a ∈ pyStrip s, a ∈ s := by
  intro a ha
  unfold pyStrip at ha
  rw [List.mem_reverse] at ha
  have h1 := (List.dropWhile_sublist (l := (s.dropWhile isPyWs).reverse) isPyWs).mem ha
  rw [List.mem_reverse] at h1
  exact (List.dropWhile_sublist isPyWs).mem h1

theorem x12Segments_clean (s : Chars) :
    ∀ seg ∈ x12Segments s, '~' ∉ seg ∧ '\n' ∉ seg := by
  intro seg hseg
  unfold x12Segments at hseg
  obtain ⟨hmem, -⟩ := List.mem_filter.mp hseg
  obtain ⟨piece, hpiece, rfl⟩ := List.mem_map.mp hmem
  constructor
  · intro hmem2
    exact pySplit_pieces_no_sep '~' (removeNl s) piece hpiece (pyStrip_subset _ _ hmem2)
  · intro hmem2
    have h1 := pyStrip_subset _ _ hmem2
    have h2 := pySplit_piece_subset '~' (removeNl s) piece hpiece _ h1
    unfold removeNl at h2
    obtain ⟨-, hne⟩ := List.mem_filter.mp h2
    simp at hne

/-- A `claim_id` recovered by `parse_837_basic` contains neither the
segment terminator, the element separator, nor a newline. -/
theorem parse_837_claimId_clean (c : Chars) (info : ClaimInfo)
    (hp : parse_837_basic c = .ok (some info)) :
    '~' ∉ info.claim_id ∧ '*' ∉ info.claim_id ∧ '\n' ∉ info.claim_id := by
  unfold parse_837_basic at hp
  split at hp
  · exact absurd (Except.ok.inj hp) (by simp)
  · rename_i hne
    split at hp
    · exact absurd (Except.ok.inj hp) (by simp)
    · rename_i clm hfind
      have hclm : clm ∈ x12Segments c := List.mem_of_find?_eq_some hfind
      have hclean := x12Segments_clean c clm hclm
      have hid : info.claim_id = fld (pySplit '*' clm) 1 := by
        split at hp
        · cases Except.ok.inj hp; rfl
        · split at hp
          · exact absurd hp (by simp)
          · cases Except.ok.inj hp; rfl
      rcases fld_mem_or_nil (pySplit '*' clm) 1 with hm | hnil
      · refine ⟨?_, ?_, ?_⟩
        · intro hx
          exact hclean.1 (pySplit_piece_subset '*' clm _ hm _ (hid ▸ hx))
        · intro hx
          exact pySplit_pieces_no_sep '*' clm _ hm (hid ▸ hx)
        · intro hx
          exact hclean.2 (pySplit_piece_subset '*' clm _ hm _ (hid ▸ hx))
      · rw [hid, hnil]
        simp

theorem genClaimId_clean (info : Option ClaimInfo) (c : Chars)
    (hp : parse_837_basic c = .ok info) :
    '~' ∉ genClaimId info ∧ '*' ∉ genClaimId info ∧ '\n' ∉ genClaimId info := by
  cases info with
  | none => refine ⟨?_, ?_, ?_⟩ <;> decide
  | some i => exact parse_837_claimId_clean c i hp

theorem removeNl_of_no_nl {x : Chars} (h : '\n' ∉ x) : removeNl x = x := by
  unfold removeNl
  apply List.filter_eq_self.mpr
  intro a ha
  simp only [decide_eq_true_eq, ne_eq]
  intro hx
  exact h (hx ▸ ha)

theorem removeNl_joinNl (l : List Chars) (h : ∀ x ∈ l, '\n' ∉ x) :
    removeNl (joinNl l) = l.join := by
  induction l with
  | nil => rfl
  | cons x xs ih =>
    cases xs with
    | nil =>
      show removeNl x = x ++ [].join
      rw [removeNl_of_no_nl (h x (List.mem_cons_self x []))]
      simp
    | cons y ys =>
      show removeNl (x ++ '\n' :: joinNl (y :: ys)) = x ++ (y :: ys).join
      unfold removeNl
      rw [List.filter_append]
      show removeNl x ++ removeNl ('\n' :: joinNl (y :: ys)) = _
      rw [removeNl_of_no_nl (h x (List.mem_cons_self x _))]
      congr 1
      show removeNl ('\n' :: joinNl (y :: ys)) = (y :: ys).join
      unfold removeNl
      rw [List.filter_cons_of_neg (by simp)]
      exact ih (fun a ha => h a (List.mem_cons_of_mem x ha))

theorem pySplit_tilde_bodies (bodies : List Chars) (h : ∀ b ∈ bodies, '~' ∉ b) :
    pySplit '~' ((bodies.map (fun b => b ++ ['~'])).join) = bodies ++ [[]] := by
  induction bodies with
  | nil => rfl
  | cons b bs ih =>
    have hb : ∀ a ∈ b, a ≠ '~' :=
      fun a ha h2 => h b (List.mem_cons_self b bs) (h2 ▸ ha)
    show pySplit '~' ((b ++ ['~']) ++ (bs.map (fun x => x ++ ['~'])).join) = _
    rw [List.append_assoc]
    show pySplit '~' (b ++ '~' :: (bs.map (fun x => x ++ ['~'])).join) = _
    rw [pySplit_append '~' b _ hb, ih (fun x hx => h x (List.mem_cons_of_mem b hx))]
    rfl

theorem x12Segments_of_bodies (bodies : List Chars)
    (h : ∀ b ∈ bodies, '~' ∉ b ∧ '\n' ∉ b ∧ b ≠ [] ∧ pyStrip b = b) :
    x12Segments (joinNl (bodies.map (fun b => b ++ ['~']))) = bodies := by
  unfold x12Segments
  have hnl : ∀ x ∈ bodies.map (fun b => b ++ ['~']), '\n' ∉ x := by
    intro x hx
    obtain ⟨b, hb, rfl⟩ := List.mem_map.mp hx
    intro hmem
    rcases List.mem_append.mp hmem with h1 | h1
    · exact (h b hb).2.1 h1
    · simp at h1
  rw [removeNl_joinNl _ hnl, pySplit_tilde_bodies bodies (fun b hb => (h b hb).1)]
  rw [List.map_append, List.filter_append]
  have hmap : bodies.map pyStrip = bodies := by
    have hfix : ∀ b ∈ bodies, pyStrip b = b := fun b hb => (h b hb).2.2.2
    clear h hnl
    induction bodies with
    | nil => rfl
    | cons b bs ih =>
      simp only [List.map_cons, hfix b (List.mem_cons_self b bs)]
      rw [ih (fun x hx => hfix x (List.mem_cons_of_mem b hx))]
  rw [hmap]
  have hfil : bodies.filter (fun p => p ≠ []) = bodies := by
    apply List.filter_eq_self.mpr
    intro a ha
    simp only [ne_eq, decide_not, Bool.not_eq_false']
    simp [(h a ha).2.2.1]
  rw [hfil]
  simp [pyStrip]

-- Tilde-free bodies of the generated 835 segments.

def seg835headB : List Chars := [
  "ISA*00*          *00*          *ZZ*SENDERID      *ZZ*RECEIVERID    *250101*1200*^*00501*000000905*0*T*:".data,
  "GS*HP*SENDERID*RECEIVERID*20250101*1200*1*X*005010X221A1".data,
  "ST*835*0001".data,
  "BPR*I*0*C*CHK************20250101".data,
  "TRN*1*12345*9876543210".data,
  "N1*PR*DEMO PAYER*PI*99999".data,
  "N1*PE*GOOD HEALTH CLINIC*XX*1234567893".data ]

def seg835tailB : List Chars := ["SE*9*0001".data, "GE*1*1".data, "IEA*1*000000905".data]

def clpBody (claim_id st : Chars) (billed paid resp : ℚ) : Chars :=
  "CLP*".data ++ claim_id ++ "*".data ++ st ++ "*".data ++ fmt2 billed ++
    "*".data ++ fmt2 paid ++ "*".data ++ fmt2 resp ++ "*MC*PCN123*11".data

def casPRBody (r : ℚ) : Chars := "CAS*PR*1*".data ++ fmt2 r

def casCOBody (b : ℚ) : Chars := "CAS*CO*45*".data ++ fmt2 b

def bodies835 (claim_id : Chars) (billed : ℚ) (oc : Chars) : List Chars :=
  if oc = "paid".data then
    seg835headB ++ [clpBody claim_id "1".data billed (remitPaid billed) (remitResp billed)] ++
      (if remitResp billed > 0 then [casPRBody (remitResp billed)] else []) ++ seg835tailB
  else
    seg835headB ++ [clpBody claim_id "4".data billed 0 0] ++ [casCOBody billed] ++ seg835tailB

theorem build_835_eq_bodies (claim_id : Chars) (billed : ℚ) (oc : Chars) :
    build_835 claim_id billed oc =
      joinNl ((bodies835 claim_id billed oc).map (fun b => b ++ ['~'])) := by
  unfold build_835 bodies835
  by_cases hoc : oc = "paid".data
  · rw [if_pos hoc, if_pos hoc]
    by_cases hr : remitResp billed > 0
    · rw [if_pos hr, if_pos hr]
      simp only [seg835head, seg835headB, seg835tail, seg835tailB, clpLine, clpBody,
        casPRBody, List.map_append, List.map_cons, List.map_nil, List.append_assoc,
        List.cons_append, List.nil_append]
    · rw [if_neg hr, if_neg hr]
      simp only [seg835head, seg835headB, seg835tail, seg835tailB, clpLine, clpBody,
        List.map_append, List.map_cons, List.map_nil, List.append_assoc,
        List.cons_append, List.nil_append]
  · rw [if_neg hoc, if_neg hoc]
    simp only [seg835head, seg835headB, seg835tail, seg835tailB, clpLine, clpBody,
      casCOBody, List.map_append, List.map_cons, List.map_nil, List.append_assoc,
      List.cons_append, List.nil_append]

theorem not_mem_app {a : Char} {x y : Chars} (hx : a ∉ x) (hy : a ∉ y) :
    a ∉ x ++ y := fun h => (List.mem_append.mp h).elim hx hy

theorem fmt2_not_mem {c : Char} (q : ℚ) (h : c ∉ numChars) : c ∉ fmt2 q :=
  fun hm => h (fmt2_mem q c hm)

theorem fmt2Cents_ne_nil (m : Nat) : fmt2Cents m ≠ [] := by
  unfold fmt2Cents
  simp [natToChars_ne_nil]

theorem fmt2_ne_nil (q : ℚ) : fmt2 q ≠ [] := by
  unfold fmt2
  split
  · simp
  · exact fmt2Cents_ne_nil _

theorem getLastD_mem {l : Chars} (h : l ≠ []) : ∀ d, l.getLastD d ∈ l := by
  induction l with
  | nil => exact absurd rfl h
  | cons a t ih =>
    intro d
    rw [List.getLastD_cons]
    cases t with
    | nil => exact List.mem_singleton.mpr rfl
    | cons b u => exact List.mem_cons_of_mem a (ih (by simp) a)

theorem fmt2_last_not_ws (q : ℚ) : isPyWs ((fmt2 q).getLastD ' ') = false :=
  numChars_not_ws _ (fmt2_mem q _ (getLastD_mem (fmt2_ne_nil q) ' '))

theorem app_ne_nil_right {x y : Chars} (h : y ≠ []) : x ++ y ≠ [] := by
  simp [h]

theorem seg835headB_clean :
    ∀ b ∈ seg835headB, '~' ∉ b ∧ '\n' ∉ b ∧ b ≠ [] ∧ pyStrip b = b := by decide

theorem seg835tailB_clean :
    ∀ b ∈ seg835tailB, '~' ∉ b ∧ '\n' ∉ b ∧ b ≠ [] ∧ pyStrip b = b := by decide

theorem clpBody_clean {cid st : Chars} (billed paid resp : ℚ)
    (hcid : '~' ∉ cid ∧ '\n' ∉ cid) (hst : '~' ∉ st ∧ '\n' ∉ st) :
    '~' ∉ clpBody cid st billed paid resp ∧ '\n' ∉ clpBody cid st billed paid resp ∧
      clpBody cid st billed paid resp ≠ [] ∧
      pyStrip (clpBody cid st billed paid resp) = clpBody cid st billed paid resp := by
  refine ⟨?_, ?_, ?_, ?_⟩
  · unfold clpBody
    repeat' apply not_mem_app
    all_goals first
      | exact hcid.1
      | exact hst.1
      | exact fmt2_not_mem _ (by decide)
      | decide
  · unfold clpBody
    repeat' apply not_mem_app
    all_goals first
      | exact hcid.2
      | exact hst.2
      | exact fmt2_not_mem _ (by decide)
      | decide
  · unfold clpBody
    simp
  · apply pyStrip_eq_self
    · unfold clpBody
      simp
    · unfold clpBody
      simp only [List.append_assoc]
      rw [headD_append (show ("CLP*".data : Chars) ≠ [] from by decide)]
      decide
    · unfold clpBody
      rw [getLastD_append _ (show ("*MC*PCN123*11".data : Chars) ≠ [] from by decide)]
      decide

theorem casPRBody_clean (r : ℚ) :
    '~' ∉ casPRBody r ∧ '\n' ∉ casPRBody r ∧ casPRBody r ≠ [] ∧
      pyStrip (casPRBody r) = casPRBody r := by
  refine ⟨?_, ?_, ?_, ?_⟩
  · exact not_mem_app (by decide) (fmt2_not_mem _ (by decide))
  · exact not_mem_app (by decide) (fmt2_not_mem _ (by decide))
  · unfold casPRBody; simp
  · apply pyStrip_eq_self
    · unfold casPRBody; simp
    · unfold casPRBody
      rw [headD_append (show ("CAS*PR*1*".data : Chars) ≠ [] from by decide)]
      decide
    · unfold casPRBody
      rw [getLastD_append _ (fmt2_ne_nil r)]
      exact fmt2_last_not_ws r

theorem casCOBody_clean (b : ℚ) :
    '~' ∉ casCOBody b ∧ '\n' ∉ casCOBody b ∧ casCOBody b ≠ [] ∧
      pyStrip (casCOBody b) = casCOBody b := by
  refine ⟨?_, ?_, ?_, ?_⟩
  · exact not_mem_app (by decide) (fmt2_not_mem _ (by decide))
  · exact not_mem_app (by decide) (fmt2_not_mem _ (by decide))
  · unfold casCOBody; simp
  · apply pyStrip_eq_self
    · unfold casCOBody; simp
    · unfold casCOBody
      rw [headD_append (show ("CAS*CO*45*".data : Chars) ≠ [] from by decide)]
      decide
    · unfold casCOBody
      rw [getLastD_append _ (fmt2_ne_nil b)]
      exact fmt2_last_not_ws b

theorem x12Segments_build_835 (cid : Chars) (billed : ℚ) (oc : Chars)
    (hcid : '~' ∉ cid ∧ '\n' ∉ cid) :
    x12Segments (build_835 cid billed oc) = bodies835 cid billed oc := by
  rw [build_835_eq_bodies]
  apply x12Segments_of_bodies
  intro b hb
  unfold bodies835 at hb
  split at hb
  · rcases List.mem_append.mp hb with h | h
    · rcases List.mem_append.mp h with h2 | h2
      · rcases List.mem_append.mp h2 with h3 | h3
        · exact seg835headB_clean b h3
        · have : b = clpBody cid "1".data billed (remitPaid billed) (remitResp billed) := by
            simpa using h3
          exact this ▸ clpBody_clean _ _ _ hcid (by decide)
      · split at h2
        · have : b = casPRBody (remitResp billed) := by simpa using h2
          exact this ▸ casPRBody_clean _
        · simp at h2
    · exact seg835tailB_clean b h
  · rcases List.mem_append.mp hb with h | h
    · rcases List.mem_append.mp h with h2 | h2
      · rcases List.mem_append.mp h2 with h3 | h3
        · exact seg835headB_clean b h3
        · have : b = clpBody cid "4".data billed 0 0 := by simpa using h3
          exact this ▸ clpBody_clean _ _ _ hcid (by decide)
      · have : b = casCOBody billed := by simpa using h2
        exact this ▸ casCOBody_clean _
    · exact seg835tailB_clean b h

theorem joinNl_cons_ne_nil (x : Chars) (xs : List Chars) (hx : x ≠ []) :
    joinNl (x :: xs) ≠ [] := by
  cases xs <;> simp [joinNl, hx]

theorem build_835_ne_nil (cid : Chars) (b : ℚ) (oc : Chars) :
    build_835 cid b oc ≠ [] := by
  rw [build_835_eq_bodies]
  unfold bodies835
  split <;>
    (simp only [seg835headB, List.cons_append, List.map_cons] <;>
     exact joinNl_cons_ne_nil _ _ (by simp))

theorem isPrefixOf_self_append (p r : Chars) : p.isPrefixOf (p ++ r) = true := by
  induction p with
  | nil => simp [List.isPrefixOf]
  | cons a t ih => simp [List.isPrefixOf, ih]

theorem clp_prefix_clpBody (cid st : Chars) (x y z : ℚ) :
    "CLP*".data.isPrefixOf (clpBody cid st x y z) = true := by
  unfold clpBody
  simp only [List.append_assoc]
  exact isPrefixOf_self_append _ _

theorem cas_not_prefix_clpBody (cid st : Chars) (x y z : ℚ) :
    "CAS*".data.isPrefixOf (clpBody cid st x y z) = false := by
  unfold clpBody
  simp only [List.append_assoc, List.cons_append, List.nil_append]
  simp [List.isPrefixOf, show ('A' == 'L') = false from by decide]

theorem cas_prefix_casPRBody (r : ℚ) :
    "CAS*".data.isPrefixOf (casPRBody r) = true := by
  unfold casPRBody
  rw [show ("CAS*PR*1*".data : Chars) = "CAS*".data ++ "PR*1*".data from by decide,
    List.append_assoc]
  exact isPrefixOf_self_append _ _

theorem cas_prefix_casCOBody (b : ℚ) :
    "CAS*".data.isPrefixOf (casCOBody b) = true := by
  unfold casCOBody
  rw [show ("CAS*CO*45*".data : Chars) = "CAS*".data ++ "CO*45*".data from by decide,
    List.append_assoc]
  exact isPrefixOf_self_append _ _

theorem clp_not_prefix_casPRBody (r : ℚ) :
    "CLP*".data.isPrefixOf (casPRBody r) = false := by
  unfold casPRBody
  rw [show ("CLP*".data : Chars) = ['C', 'L', 'P', '*'] from by decide,
    show ("CAS*PR*1*".data : Chars) = 'C' :: 'A' :: "S*PR*1*".data from by decide]
  simp [List.isPrefixOf, show ('L' == 'A') = false from by decide]

theorem clp_not_prefix_casCOBody (b : ℚ) :
    "CLP*".data.isPrefixOf (casCOBody b) = false := by
  unfold casCOBody
  rw [show ("CLP*".data : Chars) = ['C', 'L', 'P', '*'] from by decide,
    show ("CAS*CO*45*".data : Chars) = 'C' :: 'A' :: "S*CO*45*".data from by decide]
  simp [List.isPrefixOf, show ('L' == 'A') = false from by decide]

theorem cas_not_prefix_clpBody' (cid st : Chars) (x y z : ℚ) :
    ¬ ("CAS*".data.isPrefixOf (clpBody cid st x y z) = true) := by
  rw [cas_not_prefix_clpBody]
  simp

theorem clpBody_reshape (cid st : Chars) (x y z : ℚ) :
    clpBody cid st x y z =
      "CLP".data ++ '*' :: (cid ++ '*' :: (st ++ '*' :: (fmt2 x ++ '*' ::
        (fmt2 y ++ '*' :: (fmt2 z ++ '*' :: ("MC".data ++ '*' ::
          ("PCN123".data ++ '*' :: "11".data))))))) := by
  unfold clpBody
  simp [List.append_assoc]

theorem no_star_of_fmt2 (x : ℚ) : ∀ a ∈ fmt2 x, a ≠ '*' :=
  fun a ha he => fmt2_not_mem (c := '*') x (by decide) (he ▸ ha)

theorem pySplit_star_clpBody (cid st : Chars) (hcid : '*' ∉ cid) (hst : '*' ∉ st)
    (x y z : ℚ) :
    pySplit '*' (clpBody cid st x y z) =
      ["CLP".data, cid, st, fmt2 x, fmt2 y, fmt2 z, "MC".data, "PCN123".data, "11".data] := by
  have hcid' : ∀ a ∈ cid, a ≠ '*' := fun a ha he => hcid (he ▸ ha)
  have hst' : ∀ a ∈ st, a ≠ '*' := fun a ha he => hst (he ▸ ha)
  rw [clpBody_reshape,
    pySplit_append '*' "CLP".data _ (by decide),
    pySplit_append '*' cid _ hcid',
    pySplit_append '*' st _ hst',
    pySplit_append '*' (fmt2 x) _ (no_star_of_fmt2 x),
    pySplit_append '*' (fmt2 y) _ (no_star_of_fmt2 y),
    pySplit_append '*' (fmt2 z) _ (no_star_of_fmt2 z),
    pySplit_append '*' "MC".data _ (by decide),
    pySplit_append '*' "PCN123".data _ (by decide),
    pySplit_no_sep '*' "11".data (by decide)]

theorem floatOrD_fmt2 (v d : ℚ) : floatOrD (fmt2 v) d = .ok (round2 v) := by
  unfold floatOrD
  rw [if_neg (fmt2_ne_nil v), pyFloat?_fmt2]

theorem round2_round2 (q : ℚ) : round2 (round2 q) = round2 q := round2_cents (rhe (100 * q))

/-- `s_info.get("claim_id", "")` in `reconcile_837_835`. -/
def genRecId : Option ClaimInfo → Chars
  | none => []
  | some i => i.claim_id

theorem exc_bind_ok {α β : Type} (a : α) (f : α → Except PyExc β) :
    (Except.ok a >>= f) = f a := rfl

theorem round2_zero : round2 0 = 0 := by
  have h := round2_cents 0
  norm_num at h
  simpa using h

theorem filter_cas_headB :
    seg835headB.filter (fun s => "CAS*".data.isPrefixOf s) = [] := by decide

theorem filter_cas_tailB :
    seg835tailB.filter (fun s => "CAS*".data.isPrefixOf s) = [] := by decide

theorem find_clp_headB (rest : List Chars) :
    (seg835headB ++ rest).find? (fun s => "CLP*".data.isPrefixOf s) =
      rest.find? (fun s => "CLP*".data.isPrefixOf s) := by
  simp only [seg835headB, List.cons_append, List.nil_append]
  repeat rw [List.find?_cons_of_neg _ (by decide)]

theorem reconcile_gen_paid (c : Chars) (info : Option ClaimInfo)
    (hp : parse_837_basic c = .ok info) :
    reconcile_837_835 c (build_835 (genClaimId info) (genBilled info) "paid".data) =
      .ok { claim_id := genRecId info
            status := "paid".data
            billed_total := round2 (genBilled info)
            paid_amount := remitPaid (genBilled info)
            patient_responsibility := remitResp (genBilled info)
            adjustments :=
              if remitResp (genBilled info) > 0 then
                [casPRBody (remitResp (genBilled info))] else []
            balance_due_to_provider :=
              round2 (max (round2 (genBilled info) - remitPaid (genBilled info) -
                remitResp (genBilled info)) 0) } := by
  have hclean := genClaimId_clean info c hp
  have hparts := pySplit_star_clpBody (genClaimId info) "1".data hclean.2.1 (by decide)
    (genBilled info) (remitPaid (genBilled info)) (remitResp (genBilled info))
  unfold reconcile_837_835
  rw [hp]
  show (Except.ok info >>= _) = _
  rw [exc_bind_ok]
  rw [if_neg (build_835_ne_nil _ _ _)]
  rw [x12Segments_build_835 _ _ _ ⟨hclean.1, hclean.2.2⟩]
  unfold bodies835
  rw [if_pos rfl]
  by_cases hr : remitResp (genBilled info) > 0
  · rw [if_pos hr]
    have hsh : seg835headB ++
        [clpBody (genClaimId info) "1".data (genBilled info) (remitPaid (genBilled info))
          (remitResp (genBilled info))] ++
        [casPRBody (remitResp (genBilled info))] ++ seg835tailB =
        seg835headB ++
        (clpBody (genClaimId info) "1".data (genBilled info) (remitPaid (genBilled info))
          (remitResp (genBilled info)) ::
          casPRBody (remitResp (genBilled info)) :: seg835tailB) := by simp
    rw [hsh]
    have hfind : (seg835headB ++
        (clpBody (genClaimId info) "1".data (genBilled info) (remitPaid (genBilled info))
          (remitResp (genBilled info)) ::
          casPRBody (remitResp (genBilled info)) :: seg835tailB)).find?
          (fun s => "CLP*".data.isPrefixOf s) =
        some (clpBody (genClaimId info) "1".data (genBilled info)
          (remitPaid (genBilled info)) (remitResp (genBilled info))) := by
      rw [find_clp_headB, List.find?_cons_of_pos _ (clp_prefix_clpBody _ _ _ _ _)]
    have hfilt : (seg835headB ++
        (clpBody (genClaimId info) "1".data (genBilled info) (remitPaid (genBilled info))
          (remitResp (genBilled info)) ::
          casPRBody (remitResp (genBilled info)) :: seg835tailB)).filter
          (fun s => "CAS*".data.isPrefixOf s) =
        [casPRBody (remitResp (genBilled info))] := by
      rw [List.filter_append, filter_cas_headB,
        List.filter_cons_of_neg (cas_not_prefix_clpBody' _ _ _ _ _),
        List.filter_cons_of_pos (cas_prefix_casPRBody _), filter_cas_tailB]
      simp
    simp only [hfind, hfilt, hparts]
    simp only [fld, List.getD_cons_succ, List.getD_cons_zero, floatOrD_fmt2, exc_bind_ok]
    simp only [pure, Except.pure, if_pos rfl, round2_round2, if_pos hr]
    cases info <;> simp [remitPaid, remitResp, round2_round2, genRecId]
  · rw [if_neg hr]
    have hsh : seg835headB ++
        [clpBody (genClaimId info) "1".data (genBilled info) (remitPaid (genBilled info))
          (remitResp (genBilled info))] ++ [] ++ seg835tailB =
        seg835headB ++
        (clpBody (genClaimId info) "1".data (genBilled info) (remitPaid (genBilled info))
          (remitResp (genBilled info)) :: seg835tailB) := by simp
    rw [hsh]
    have hfind : (seg835headB ++
        (clpBody (genClaimId info) "1".data (genBilled info) (remitPaid (genBilled info))
          (remitResp (genBilled info)) :: seg835tailB)).find?
          (fun s => "CLP*".data.isPrefixOf s) =
        some (clpBody (genClaimId info) "1".data (genBilled info)
          (remitPaid (genBilled info)) (remitResp (genBilled info))) := by
      rw [find_clp_headB, List.find?_cons_of_pos _ (clp_prefix_clpBody _ _ _ _ _)]
    have hfilt : (seg835headB ++
        (clpBody (genClaimId info) "1".data (genBilled info) (remitPaid (genBilled info))
          (remitResp (genBilled info)) :: seg835tailB)).filter
          (fun s => "CAS*".data.isPrefixOf s) = [] := by
      rw [List.filter_append, filter_cas_headB,
        List.filter_cons_of_neg (cas_not_prefix_clpBody' _ _ _ _ _), filter_cas_tailB]
      simp
    simp only [hfind, hfilt, hparts]
    simp only [fld, List.getD_cons_succ, List.getD_cons_zero, floatOrD_fmt2, exc_bind_ok]
    simp only [pure, Except.pure, if_pos rfl, round2_round2, if_neg hr]
    cases info <;> simp [remitPaid, remitResp, round2_round2, genRecId]

theorem reconcile_gen_denied (c : Chars) (info : Option ClaimInfo)
    (hp : parse_837_basic c = .ok info) :
    reconcile_837_835 c (build_835 (genClaimId info) (genBilled info) "denied".data) =
      .ok { claim_id := genRecId info
            status := "denied".data
            billed_total := round2 (genBilled info)
            paid_amount := 0
            patient_responsibility := 0
            adjustments := [casCOBody (genBilled info)]
            balance_due_to_provider :=
              round2 (max (round2 (genBilled info) - 0 - 0) 0) } := by
  have hclean := genClaimId_clean info c hp
  have hparts := pySplit_star_clpBody (genClaimId info) "4".data hclean.2.1 (by decide)
    (genBilled info) 0 0
  unfold reconcile_837_835
  rw [hp]
  show (Except.ok info >>= _) = _
  rw [exc_bind_ok]
  rw [if_neg (build_835_ne_nil _ _ _)]
  rw [x12Segments_build_835 _ _ _ ⟨hclean.1, hclean.2.2⟩]
  unfold bodies835
  rw [if_neg (by decide)]
  have hsh : seg835headB ++
      [clpBody (genClaimId info) "4".data (genBilled info) 0 0] ++
      [casCOBody (genBilled info)] ++ seg835tailB =
      seg835headB ++
      (clpBody (genClaimId info) "4".data (genBilled info) 0 0 ::
        casCOBody (genBilled info) :: seg835tailB) := by simp
  rw [hsh]
  have hfind : (seg835headB ++
      (clpBody (genClaimId info) "4".data (genBilled info) 0 0 ::
        casCOBody (genBilled info) :: seg835tailB)).find?
        (fun s => "CLP*".data.isPrefixOf s) =
      some (clpBody (genClaimId info) "4".data (genBilled info) 0 0) := by
    rw [find_clp_headB, List.find?_cons_of_pos _ (clp_prefix_clpBody _ _ _ _ _)]
  have hfilt : (seg835headB ++
      (clpBody (genClaimId info) "4".data (genBilled info) 0 0 ::
        casCOBody (genBilled info) :: seg835tailB)).filter
        (fun s => "CAS*".data.isPrefixOf s) = [casCOBody (genBilled info)] := by
    rw [List.filter_append, filter_cas_headB,
      List.filter_cons_of_neg (cas_not_prefix_clpBody' _ _ _ _ _),
      List.filter_cons_of_pos (cas_prefix_casCOBody _), filter_cas_tailB]
    simp
  simp only [hfind, hfilt, hparts]
  simp only [fld, List.getD_cons_succ, List.getD_cons_zero, floatOrD_fmt2, exc_bind_ok]
  simp only [pure, Except.pure, round2_round2]
  cases info <;> simp [genRecId, round2_zero]

theorem generate_835_eq (c : Chars) (info : Option ClaimInfo) (oc : Chars)
    (hp : parse_837_basic c = .ok info) :
    generate_835_from_837 c oc =
      .ok (build_835 (genClaimId info) (genBilled info)
        (if oc ≠ "paid".data ∧ oc ≠ "denied".data then "paid".data else oc)) := by
  unfold generate_835_from_837
  rw [hp]
  show (Except.ok info >>= _) = _
  rw [exc_bind_ok]
  rfl

theorem max_cents (d : ℤ) :
    max (((d : ℤ) : ℚ) / 100) 0 = ((max d 0 : ℤ) : ℚ) / 100 := by
  rcases le_total d 0 with h | h
  · rw [max_eq_right h]
    rw [max_eq_right]
    · simp
    · have : ((d : ℤ) : ℚ) ≤ 0 := by exact_mod_cast h
      linarith
  · rw [max_eq_left h]
    rw [max_eq_left]
    have : (0 : ℚ) ≤ ((d : ℤ) : ℚ) := by exact_mod_cast h
    linarith

/-- Money conservation of the simulated `paid` remittance after
reconciliation: the summary's `paid + patient_responsibility + balance`
can differ from its `billed_total` by at most one cent (the cent shows up
only when the billed amount is not a whole number of cents). -/
theorem paid_conservation (b : ℚ) :
    |remitPaid b + remitResp b +
      round2 (max (round2 b - remitPaid b - remitResp b) 0) - round2 b| ≤ 1/100 := by
  have hP : remitPaid b = ((rhe (100 * (b * (4/5))) : ℤ) : ℚ) / 100 := rfl
  have harg : 100 * (b - ((rhe (100 * (b * (4/5))) : ℤ) : ℚ) / 100) =
      100 * b - ((rhe (100 * (b * (4/5))) : ℤ) : ℚ) := by ring
  have hR : remitResp b =
      ((rhe (100 * b - ((rhe (100 * (b * (4/5))) : ℤ) : ℚ)) : ℤ) : ℚ) / 100 := by
    show round2 (b - remitPaid b) = _
    unfold round2
    rw [hP, harg]
  set P : ℤ := rhe (100 * (b * (4/5))) with hPdef
  set RS : ℤ := rhe (100 * b - (P : ℚ)) with hRSdef
  set T : ℤ := rhe (100 * b) with hTdef
  have hTb : |((T : ℤ) : ℚ) - 100 * b| ≤ 1/2 := abs_rhe_sub (100 * b)
  have hRSb : |((RS : ℤ) : ℚ) - (100 * b - (P : ℚ))| ≤ 1/2 := abs_rhe_sub _
  have hbilled : round2 b = ((T : ℤ) : ℚ) / 100 := rfl
  have hinner : round2 b - remitPaid b - remitResp b = ((T - P - RS : ℤ) : ℚ) / 100 := by
    rw [hbilled, hP, hR]
    push_cast
    ring
  have hbal : round2 (max (round2 b - remitPaid b - remitResp b) 0) =
      ((max (T - P - RS) 0 : ℤ) : ℚ) / 100 := by
    rw [hinner, max_cents, round2_cents]
  rw [hbal, hP, hR, hbilled]
  rw [abs_le] at hTb hRSb ⊢
  have hd1 : ((T : ℤ) : ℚ) - (P : ℚ) - (RS : ℚ) ≤ 1 := by linarith [hTb.1, hTb.2, hRSb.1, hRSb.2]
  have hd2 : (-1 : ℚ) ≤ ((T : ℤ) : ℚ) - (P : ℚ) - (RS : ℚ) := by
    linarith [hTb.1, hTb.2, hRSb.1, hRSb.2]
  rcases le_total (T - P - RS) 0 with hd | hd
  · rw [max_eq_right hd]
    have hq : ((T - P - RS : ℤ) : ℚ) ≤ 0 := by exact_mod_cast hd
    push_cast at hq ⊢
    constructor <;> linarith
  · rw [max_eq_left hd]
    have hq : (0 : ℚ) ≤ ((T - P - RS : ℤ) : ℚ) := by exact_mod_cast hd
    push_cast at hq ⊢
    constructor <;> linarith

/-- For the `denied` outcome the reconciled balance is the billed total
clamped to zero. -/
theorem denied_balance (b : ℚ) :
    round2 (max (round2 b - 0 - 0) 0) = max (round2 b) 0 := by
  have h : round2 b - 0 - 0 = round2 b := by ring
  rw [h]
  show round2 (max (((rhe (100 * b) : ℤ) : ℚ) / 100) 0) = _
  rw [max_cents, round2_cents, ← max_cents]
  rfl

instance {ε α : Type} [DecidableEq ε] [DecidableEq α] : DecidableEq (Except ε α) := fun a b =>
  match a, b with
  | .ok x, .ok y => if h : x = y then isTrue (by rw [h]) else isFalse (by simp [h])
  | .error x, .error y => if h : x = y then isTrue (by rw [h]) else isFalse (by simp [h])
  | .ok _, .error _ => isFalse (by simp)
  | .error _, .ok _ => isFalse (by simp)

theorem rhe_zero : rhe 0 = 0 := by unfold rhe; norm_num

theorem fmt2_zero : fmt2 0 = "0.00".data := by
  unfold fmt2
  rw [show (100:ℚ) * 0 = 0 from by ring, rhe_zero]
  decide

theorem remitPaid_zero : remitPaid 0 = 0 := by
  unfold remitPaid
  rw [show (0:ℚ) * (4/5) = 0 from by ring, round2_zero]

theorem remitResp_zero : remitResp 0 = 0 := by
  unfold remitResp
  rw [remitPaid_zero, show (0:ℚ) - 0 = 0 from by ring, round2_zero]

theorem rhe_eq_of_lt (q : ℚ) (n : ℤ) (h1 : ⌊q⌋ = n) (h2 : q - n < 1/2) : rhe q = n := by
  unfold rhe
  rw [h1, if_pos h2]

theorem rhe_eq_of_gt (q : ℚ) (n : ℤ) (h1 : ⌊q⌋ = n) (h2 : 1/2 < q - n) : rhe q = n + 1 := by
  unfold rhe
  rw [h1, if_neg (by linarith), if_pos h2]

theorem remit_le (b : ℚ) : remitPaid b + remitResp b ≤ b + 1/200 := by
  have hP := abs_rhe_sub (100 * (b * (4/5)))
  have hPeq : remitPaid b = ((rhe (100 * (b * (4/5))) : ℤ) : ℚ) / 100 := rfl
  have harg : 100 * (b - ((rhe (100 * (b * (4/5))) : ℤ) : ℚ) / 100) =
      100 * b - ((rhe (100 * (b * (4/5))) : ℤ) : ℚ) := by ring
  have hReq : remitResp b =
      ((rhe (100 * b - ((rhe (100 * (b * (4/5))) : ℤ) : ℚ)) : ℤ) : ℚ) / 100 := by
    show round2 (b - remitPaid b) = _
    unfold round2
    rw [hPeq, harg]
  have hR := abs_rhe_sub (100 * b - ((rhe (100 * (b * (4/5))) : ℤ) : ℚ))
  rw [abs_le] at hP hR
  rw [hPeq, hReq]
  linarith [hP.1, hP.2, hR.1, hR.2]

theorem remit_exact (b : ℚ) (n : ℤ) (hb : b = ((n : ℤ) : ℚ) / 100) :
    remitPaid b + remitResp b = b := by
  have hPeq : remitPaid b = ((rhe (100 * (b * (4/5))) : ℤ) : ℚ) / 100 := rfl
  have harg : 100 * (b - ((rhe (100 * (b * (4/5))) : ℤ) : ℚ) / 100) =
      ((n - rhe (100 * (b * (4/5))) : ℤ) : ℚ) := by
    rw [hb]
    push_cast
    ring
  have hReq : remitResp b = ((n - rhe (100 * (b * (4/5))) : ℤ) : ℚ) / 100 := by
    show round2 (b - remitPaid b) = _
    unfold round2
    rw [hPeq, harg, rhe_intCast]
  rw [hPeq, hReq, hb]
  push_cast
  ring

theorem exc_bind_error {α β : Type} (ex : PyExc) (f : α → Except PyExc β) :
    (Except.error ex >>= f : Except PyExc β) = .error ex := rfl

theorem gen_ok_parse (c oc e : Chars) (h : generate_835_from_837 c oc = .ok e) :
    ∃ info, parse_837_basic c = .ok info := by
  cases hP : parse_837_basic c with
  | ok info => exact ⟨info, rfl⟩
  | error ex =>
    unfold generate_835_from_837 at h
    rw [hP, exc_bind_error] at h
    exact absurd h (by simp)

theorem rhe_of_int (q : ℚ) (n : ℤ) (h : q = ((n : ℤ) : ℚ)) : rhe q = n :=
  h ▸ rhe_intCast n

theorem round2_of_int100 (q : ℚ) (n : ℤ) (h : 100 * q = ((n : ℤ) : ℚ)) :
    round2 q = ((n : ℤ) : ℚ) / 100 := by
  unfold round2
  rw [rhe_of_int _ n h]

/-- C2: round-trip through the simulator — reconciling a claim against its
own simulated remittance yields status `"paid"` for the `"paid"` outcome
and `"denied"` for the `"denied"` outcome, for every claim text on which
the simulator succeeds. -/
theorem C2_roundtrip_status (c e1 e2 : Chars)
    (h1 : generate_835_from_837 c "paid".data = .ok e1)
    (h2 : generate_835_from_837 c "denied".data = .ok e2) :
    (∃ s, reconcile_837_835 c e1 = .ok s ∧ s.status = "paid".data) ∧
    (∃ s, reconcile_837_835 c e2 = .ok s ∧ s.status = "denied".data) := by
  obtain ⟨info, hp⟩ := gen_ok_parse c "paid".data e1 h1
  have hg1 := generate_835_eq c info "paid".data hp
  rw [ite_self] at hg1
  have he1 : e1 = build_835 (genClaimId info) (genBilled info) "paid".data :=
    Except.ok.inj (h1.symm.trans hg1)
  have hg2 := generate_835_eq c info "denied".data hp
  rw [if_neg (by decide)] at hg2
  have he2 : e2 = build_835 (genClaimId info) (genBilled info) "denied".data :=
    Except.ok.inj (h2.symm.trans hg2)
  subst he1
  subst he2
  exact ⟨⟨_, reconcile_gen_paid c info hp, rfl⟩,
         ⟨_, reconcile_gen_denied c info hp, rfl⟩⟩

/-- Witness for C2 at the concrete claim text `""` (no CLM segment: the
simulator falls back to claim id `UNKNOWN` and billed total `0`). -/
theorem C2_roundtrip_status_witness :
    (∃ s, reconcile_837_835 [] (build_835 "UNKNOWN".data 0 "paid".data) = .ok s ∧
      s.status = "paid".data) ∧
    (∃ s, reconcile_837_835 [] (build_835 "UNKNOWN".data 0 "denied".data) = .ok s ∧
      s.status = "denied".data) := by
  apply C2_roundtrip_status
  · rw [generate_835_eq [] none "paid".data rfl, ite_self]
    rfl
  · rw [generate_835_eq [] none "denied".data rfl, if_neg (by decide)]
    rfl

/-- C3 (amended): for every claim document whose CLM parse succeeds with
billed total `B`, the `"paid"` remittance computes
`paid = round(B * 0.8, 2)`, `patient_responsibility = round(B - paid, 2)`,
emits a CAS adjustment iff `patient_responsibility > 0`, and
`paid + patient_responsibility ≤ B + 0.005`, with exact equality
`paid + patient_responsibility = B` whenever `B` is a whole number of
cents.  (The unconditional `≤ B` of the original claim fails for billed
totals with a fractional cent — see the counterexample.) -/
theorem C3_paid_amounts (c doc : Chars) (info : ClaimInfo)
    (hp : parse_837_basic c = .ok (some info))
    (hgen : generate_835_from_837 c "paid".data = .ok doc) :
    ∃ s, reconcile_837_835 c doc = .ok s ∧
      s.paid_amount = round2 (info.billed_total * (4/5)) ∧
      s.patient_responsibility =
        round2 (info.billed_total - round2 (info.billed_total * (4/5))) ∧
      (s.adjustments ≠ [] ↔ s.patient_responsibility > 0) ∧
      s.paid_amount + s.patient_responsibility ≤ info.billed_total + 1/200 ∧
      (∀ n : ℤ, info.billed_total = ((n : ℤ) : ℚ) / 100 →
        s.paid_amount + s.patient_responsibility = info.billed_total) := by
  have hg := generate_835_eq c (some info) "paid".data hp
  rw [ite_self] at hg
  have hdoc : doc = build_835 (genClaimId (some info)) (genBilled (some info)) "paid".data :=
    Except.ok.inj (hgen.symm.trans hg)
  subst hdoc
  refine ⟨_, reconcile_gen_paid c (some info) hp, rfl, rfl, ?_, ?_, ?_⟩
  · by_cases h : remitResp (genBilled (some info)) > 0 <;> simp [h]
  · exact remit_le _
  · exact fun n hn => remit_exact _ n hn

/-- The minimal-ADT scenario message of the spec. -/
def msg5 : Chars :=
  "MSH|^~\\&|A|B|C|D|20250101120000||ADT^A01|MSG1|P|2.3\nPID|||999^^^MRN||DOE^JANE||19900101|F\nPV1||I|W^101^1".data

def p5 : Patient :=
  { patient_id := "999".data, family := "DOE".data, given := "JANE".data,
    birth_date := some "1990-01-01".data, gender := "female".data,
    line1 := [], city := [], state := [], postal := [] }

def e5 : Encounter :=
  { class_code := "IMP".data, loc_display := some "W^101^1".data,
    period_start := none, subject := some "Patient/999".data }

theorem parse_claim5 :
    parse_837_basic (fhir_to_837_claim p5 e5) = .ok (some ⟨"999".data, 150⟩) := by decide

/-- Witness for C3 at the claim generated from the minimal-ADT scenario
(billed total 150, a whole number of cents). -/
theorem C3_paid_amounts_witness :
    ∃ s, reconcile_837_835 (fhir_to_837_claim p5 e5)
        (build_835 "999".data 150 "paid".data) = .ok s ∧
      s.paid_amount = round2 ((150 : ℚ) * (4/5)) ∧
      s.patient_responsibility = round2 ((150 : ℚ) - round2 ((150 : ℚ) * (4/5))) ∧
      (s.adjustments ≠ [] ↔ s.patient_responsibility > 0) ∧
      s.paid_amount + s.patient_responsibility ≤ (150 : ℚ) + 1/200 ∧
      (∀ n : ℤ, (150 : ℚ) = ((n : ℤ) : ℚ) / 100 →
        s.paid_amount + s.patient_responsibility = (150 : ℚ)) := by
  exact C3_paid_amounts (fhir_to_837_claim p5 e5) _ ⟨"999".data, 150⟩ parse_claim5
    (by rw [generate_835_eq _ (some ⟨"999".data, 150⟩) "paid".data parse_claim5, ite_self]
        rfl)

def pX : Patient :=
  { patient_id := "X*1.008".data, family := "F".data, given := [], birth_date := none,
    gender := "unknown".data, line1 := [], city := [], state := [], postal := [] }

def eX : Encounter :=
  { class_code := "AMB".data, loc_display := none, period_start := none, subject := none }

def claimX : Chars := fhir_to_837_claim pX eX

/-- The summary reconciled from `claimX`'s simulated `paid` remittance:
billed 1.008 parses from the hijacked CLM element, paid = 0.81,
patient responsibility = 0.20. -/
def sX : ReconSummary :=
  { claim_id := "X".data, status := "paid".data, billed_total := 101/100,
    paid_amount := 81/100, patient_responsibility := 1/5,
    adjustments := ["CAS*PR*1*0.20".data], balance_due_to_provider := 0 }

theorem pyFloat_1008 : pyFloat? "1.008".data = some (126/125) := by
  unfold pyFloat?
  rw [show pyStrip "1.008".data = "1.008".data from by decide]
  rw [if_neg (by decide), if_neg (by decide), if_neg (by decide)]
  rw [pyFloatBody_dot "1.008".data "1".data "008".data (by decide) (by decide)]
  rw [if_pos (by decide)]
  rw [show valAux 0 "1".data = 1 from by decide,
    show valAux 0 "008".data = 8 from by decide,
    show ("008".data : Chars).length = 3 from by decide]
  norm_num

theorem parse_claimX : parse_837_basic claimX = .ok (some ⟨"X".data, 126/125⟩) := by
  have hfind : (x12Segments claimX).find? (fun s => "CLM*".data.isPrefixOf s) =
      some "CLM*X*1.008*150***11:B:1*Y*A*Y*Y".data := by decide
  have hfld2 : fld (pySplit '*' ("CLM*X*1.008*150***11:B:1*Y*A*Y*Y".data)) 2 =
      "1.008".data := by decide
  have hfld1 : fld (pySplit '*' ("CLM*X*1.008*150***11:B:1*Y*A*Y*Y".data)) 1 =
      "X".data := by decide
  have hne : ¬ (claimX = []) := by decide
  simp [parse_837_basic, hfind, hfld2, hfld1, hne]
  rw [show (pyFloat? ['1', '.', '0', '0', '8'] : Option ℚ) = some (126/125) from
    pyFloat_1008]

theorem remitPaid_X : remitPaid (126/125) = 81/100 := by
  unfold remitPaid round2
  rw [show (100 : ℚ) * (126/125 * (4/5)) = 2016/25 from by norm_num]
  rw [rhe_eq_of_gt (2016/25) 80 (by rw [Int.floor_eq_iff] <;> norm_num) (by norm_num)]
  norm_num

theorem remitResp_X : remitResp (126/125) = 1/5 := by
  unfold remitResp
  rw [remitPaid_X]
  unfold round2
  rw [show (100 : ℚ) * (126/125 - 81/100) = 99/5 from by norm_num]
  rw [rhe_eq_of_gt (99/5) 19 (by rw [Int.floor_eq_iff] <;> norm_num) (by norm_num)]
  norm_num

theorem fmt2_fifth : fmt2 (1/5) = "0.20".data := by
  unfold fmt2
  rw [rhe_of_int (100 * (1/5)) 20 (by norm_num)]
  decide

theorem round2_X : round2 (126/125) = 101/100 := by
  unfold round2
  rw [rhe_eq_of_gt (100 * (126/125)) 100 (by rw [Int.floor_eq_iff] <;> norm_num)
    (by norm_num)]
  norm_num

/-- Counterexample to C3 as stated: for the generated claim document whose
billed total parses as 1.008 (patient identifier `"X*1.008"` hijacks the
CLM element positions), the simulator's `paid + patient_responsibility`
is 1.01, which exceeds the billed total 1.008. -/
theorem C3_counterexample :
    parse_837_basic claimX = .ok (some ⟨"X".data, 126/125⟩) ∧
    generate_835_from_837 claimX "paid".data =
      .ok (build_835 "X".data (126/125) "paid".data) ∧
    reconcile_837_835 claimX (build_835 "X".data (126/125) "paid".data) = .ok sX ∧
    sX.paid_amount + sX.patient_responsibility > 126/125 := by
  refine ⟨parse_claimX, ?_, ?_, by norm_num [sX]⟩
  · rw [generate_835_eq _ (some ⟨"X".data, 126/125⟩) "paid".data parse_claimX, ite_self]
    rfl
  · show reconcile_837_835 claimX
      (build_835 (genClaimId (some ⟨"X".data, 126/125⟩))
        (genBilled (some ⟨"X".data, 126/125⟩)) "paid".data) = Except.ok sX
    rw [reconcile_gen_paid claimX (some ⟨"X".data, 126/125⟩) parse_claimX]
    have hadj : (if remitResp (genBilled (some ⟨"X".data, 126/125⟩)) > 0 then
        [casPRBody (remitResp (genBilled (some ⟨"X".data, 126/125⟩)))] else []) =
        ["CAS*PR*1*0.20".data] := by
      rw [show genBilled (some ⟨"X".data, 126/125⟩) = 126/125 from rfl, remitResp_X,
        if_pos (by norm_num)]
      rw [show casPRBody (1/5) = "CAS*PR*1*".data ++ fmt2 (1/5) from rfl, fmt2_fifth]
      decide
    rw [show genRecId (some ⟨"X".data, 126/125⟩) = "X".data from rfl]
    rw [show genBilled (some ⟨"X".data, 126/125⟩) = 126/125 from rfl] at hadj ⊢
    rw [hadj, remitPaid_X, remitResp_X, round2_X]
    rw [show (101:ℚ)/100 - 81/100 - 1/5 = 0 from by norm_num]
    rw [show max (0:ℚ) 0 = 0 from by norm_num, round2_zero]
    rfl

def msgNeg : Chars :=
  "MSH|^~\\&|A|B|C|D|20250101120000||ADT^A01|MSG1|P|2.3\nPID|||9*-5\nPV1||I".data

def pNeg : Patient :=
  { patient_id := "9*-5".data, family := [], given := [], birth_date := none,
    gender := "unknown".data, line1 := [], city := [], state := [], postal := [] }

def eNeg : Encounter :=
  { class_code := "IMP".data, loc_display := none, period_start := none,
    subject := some "Patient/9*-5".data }

/-- C1 (amended): composing claim generation, remittance simulation and
reconciliation on the patient/encounter pair extracted from an HL7
message: for the `"paid"` outcome the reconciliation summary conserves
money to within `0.01` of its own billed total; for the `"denied"`
outcome the paid amount is `0` and — amending the claimed
`balance == billed_total` — the balance due to the provider is the
billed total clamped below at zero, which differs from the billed total
whenever the parsed billed amount is negative. -/
theorem C1_conservation (msg : Chars) (p : Patient) (e : Encounter)
    (info : Option ClaimInfo)
    (hp : hl7_to_fhir_patient (parse_hl7 msg) = some p)
    (he : hl7_to_fhir_encounter (parse_hl7 msg) (patientIdOpt p) = .ok (some e))
    (hparse : parse_837_basic (fhir_to_837_claim p e) = .ok info) :
    (∃ s, reconcile_837_835 (fhir_to_837_claim p e)
        (build_835 (genClaimId info) (genBilled info) "paid".data) = .ok s ∧
      |s.paid_amount + s.patient_responsibility + s.balance_due_to_provider -
        s.billed_total| ≤ 1/100) ∧
    (∃ s, reconcile_837_835 (fhir_to_837_claim p e)
        (build_835 (genClaimId info) (genBilled info) "denied".data) = .ok s ∧
      s.paid_amount = 0 ∧
      s.balance_due_to_provider = max s.billed_total 0) := by
  refine ⟨⟨_, reconcile_gen_paid _ info hparse, ?_⟩,
    ⟨_, reconcile_gen_denied _ info hparse, rfl, ?_⟩⟩
  · exact paid_conservation (genBilled info)
  · exact denied_balance (genBilled info)

/-- Witness for C1 at the minimal ADT scenario (billed total 150). -/
theorem C1_conservation_witness :
    hl7_to_fhir_patient (parse_hl7 msg5) = some p5 ∧
    ((∃ s, reconcile_837_835 (fhir_to_837_claim p5 e5)
        (build_835 (genClaimId (some ⟨"999".data, 150⟩))
          (genBilled (some ⟨"999".data, 150⟩)) "paid".data) = .ok s ∧
      |s.paid_amount + s.patient_responsibility + s.balance_due_to_provider -
        s.billed_total| ≤ 1/100) ∧
    (∃ s, reconcile_837_835 (fhir_to_837_claim p5 e5)
        (build_835 (genClaimId (some ⟨"999".data, 150⟩))
          (genBilled (some ⟨"999".data, 150⟩)) "denied".data) = .ok s ∧
      s.paid_amount = 0 ∧
      s.balance_due_to_provider = max s.billed_total 0)) :=
  ⟨by decide,
   C1_conservation msg5 p5 e5 (some ⟨"999".data, 150⟩) (by decide) (by decide)
     parse_claim5⟩

/-- Counterexample to C1 as stated: the ADT message `msgNeg` has both a
PID and a PV1 segment, but its patient identifier `"9*-5"` contains `*`
characters that shift the generated CLM element positions, so the parsed
billed total is `-5`; for the `"denied"` outcome the reconciled balance
due to the provider is `0` (the billed total clamped at zero), not the
billed total `-5`. -/
theorem C1_counterexample :
    allMsgType msgNeg = some "ADT^A01".data ∧
    hl7_to_fhir_patient (parse_hl7 msgNeg) = some pNeg ∧
    hl7_to_fhir_encounter (parse_hl7 msgNeg) (patientIdOpt pNeg) = .ok (some eNeg) ∧
    parse_837_basic (fhir_to_837_claim pNeg eNeg) = .ok (some ⟨"9".data, -5⟩) ∧
    (∃ s, reconcile_837_835 (fhir_to_837_claim pNeg eNeg)
        (build_835 (genClaimId (some ⟨"9".data, -5⟩))
          (genBilled (some ⟨"9".data, -5⟩)) "denied".data) = .ok s ∧
      s.paid_amount = 0 ∧ s.billed_total = -5 ∧
      s.balance_due_to_provider = 0 ∧
      s.balance_due_to_provider ≠ s.billed_total) := by
  have hb : round2 ((-5 : ℚ)) = -5 := by
    rw [round2_of_int100 (-5) (-500) (by norm_num)]
    norm_num
  refine ⟨by decide, by decide, by decide, by decide,
    ⟨_, reconcile_gen_denied _ (some ⟨"9".data, -5⟩) (by decide), rfl, ?_, ?_, ?_⟩⟩
  · exact hb
  · show round2 (max (round2 ((-5 : ℚ)) - 0 - 0) 0) = 0
    rw [denied_balance, hb, max_eq_right (by norm_num)]
  · show round2 (max (round2 ((-5 : ℚ)) - 0 - 0) 0) ≠ round2 ((-5 : ℚ))
    rw [denied_balance, hb, max_eq_right (by norm_num)]
    norm_num

theorem clpBody_unknown_zero :
    clpBody "UNKNOWN".data "1".data 0 (remitPaid 0) 0 =
      "CLP*UNKNOWN*1*0.00*0.00*0.00*MC*PCN123*11".data := by
  rw [remitPaid_zero]
  unfold clpBody
  rw [fmt2_zero]
  decide

/-- C10: for every input text with no `CLM*`-prefixed segment (including
the empty string), `generate_835_from_837` with outcome `"paid"` succeeds
(no exception) and produces a remittance whose CLP line carries claim id
`UNKNOWN` with billed `0.00`, paid `0.00` and patient responsibility
`0.00`, and which contains no CAS adjustment segment. -/
theorem C10_no_clm (c : Chars)
    (h : (x12Segments c).find? (fun s => "CLM*".data.isPrefixOf s) = none) :
    ∃ e, generate_835_from_837 c "paid".data = .ok e ∧
      (x12Segments e).find? (fun s => "CLP*".data.isPrefixOf s) =
        some "CLP*UNKNOWN*1*0.00*0.00*0.00*MC*PCN123*11".data ∧
      (x12Segments e).filter (fun s => "CAS*".data.isPrefixOf s) = [] := by
  have hparse : parse_837_basic c = .ok none := by
    unfold parse_837_basic
    by_cases hc : c = []
    · rw [if_pos hc]
    · rw [if_neg hc, h]
  have hgen : generate_835_from_837 c "paid".data =
      .ok (build_835 "UNKNOWN".data 0 "paid".data) := by
    rw [generate_835_eq c none "paid".data hparse, ite_self]
    rfl
  have hsegs : x12Segments (build_835 "UNKNOWN".data 0 "paid".data) =
      seg835headB ++
        ("CLP*UNKNOWN*1*0.00*0.00*0.00*MC*PCN123*11".data :: seg835tailB) := by
    rw [x12Segments_build_835 _ _ _ ⟨by decide, by decide⟩]
    unfold bodies835
    rw [if_pos rfl, remitResp_zero, if_neg (by norm_num), clpBody_unknown_zero]
    simp
  refine ⟨_, hgen, ?_, ?_⟩
  · rw [hsegs, find_clp_headB, List.find?_cons_of_pos _ (by decide)]
  · rw [hsegs, List.filter_append, filter_cas_headB,
      List.filter_cons_of_neg (by decide), filter_cas_tailB]
    simp

/-- Witness for C10 at the empty input. -/
theorem C10_no_clm_witness :
    (x12Segments "".data).find? (fun s => "CLM*".data.isPrefixOf s) = none ∧
    (∃ e, generate_835_from_837 "".data "paid".data = .ok e ∧
      (x12Segments e).find? (fun s => "CLP*".data.isPrefixOf s) =
        some "CLP*UNKNOWN*1*0.00*0.00*0.00*MC*PCN123*11".data ∧
      (x12Segments e).filter (fun s => "CAS*".data.isPrefixOf s) = []) :=
  ⟨by decide, C10_no_clm "".data (by decide)⟩

def msgMSHX : Chars := "MSHX|1|2|3|4|5|6|7|ADT^A01".data

/-- C4 (amended): for every input text in which no line starting with
`"MSH"` (the prefix test the code performs, rather than an exact segment
name) supplies a non-empty field 8, `hl7_to_all` returns the explicit
"unable to determine type" error together with the raw text — a result
with no clinical fields — and does not raise. -/
theorem C4_no_type (hl7_text : Chars)
    (h : ∀ l ∈ pySplit '\n' (pyStrip hl7_text),
      "MSH".data.isPrefixOf l = true → fld (pySplit '|' l) 8 = []) :
    hl7_to_all hl7_text =
      .ok (.errNoType
        "Unable to determine HL7 message type (MSH-9 missing).".data hl7_text) := by
  have hA : truthy (allMsgType hl7_text) = false := by
    unfold allMsgType
    cases hfind : (pySplit '\n' (pyStrip hl7_text)).find?
        (fun l => "MSH".data.isPrefixOf l) with
    | none => rfl
    | some seg =>
      have hmem : seg ∈ pySplit '\n' (pyStrip hl7_text) :=
        List.mem_of_find?_eq_some hfind
      have hpref : "MSH".data.isPrefixOf seg = true := by
        have hp := List.find?_some hfind
        simpa using hp
      have h8 := h seg hmem hpref
      show truthy (if 8 < (pySplit '|' seg).length then
        some (fld (pySplit '|' seg) 8) else none) = false
      by_cases hl : 8 < (pySplit '|' seg).length
      · rw [if_pos hl, h8]
        rfl
      · rw [if_neg hl]
        rfl
  unfold hl7_to_all
  rw [hA]
  rfl

/-- Witness for C4 at a text with no MSH-prefixed line at all. -/
theorem C4_no_type_witness :
    (∀ l ∈ pySplit '\n' (pyStrip "PID|1".data),
      "MSH".data.isPrefixOf l = true → fld (pySplit '|' l) 8 = []) ∧
    hl7_to_all "PID|1".data =
      .ok (.errNoType
        "Unable to determine HL7 message type (MSH-9 missing).".data "PID|1".data) :=
  ⟨by decide, C4_no_type "PID|1".data (by decide)⟩

/-- Counterexample to C4 as stated: `msgMSHX` contains no MSH segment at
all (its only segment is named `MSHX`), so no MSH segment supplies a
message type; yet `hl7_to_all` takes the `MSHX` line as the header via a
prefix test, reads message type `ADT^A01` from it, and returns a clinical
ADT payload rather than the "unable to determine type" error. -/
theorem C4_counterexample :
    (∀ l ∈ pySplit '\n' (pyStrip msgMSHX), fld (pySplit '|' l) 0 ≠ "MSH".data) ∧
    hl7_to_all msgMSHX =
      .ok (.adt "ADT^A01".data msgMSHX none none none none none) := by
  constructor
  · decide
  · decide

/-- C5: for the specific three-segment ADT message (MSH/PID/PV1 as given
in the spec, modelled by `msg5`), the transform yields patient identifier
`"999"`, gender `"female"`, birth date `"1990-01-01"`, encounter class
code `"IMP"`, and a generated claim document whose CLM segment carries
claim id `"999"` and billed total `150`, which the claim parser reads
back as exactly those values. -/
theorem C5_specific :
    hl7_to_fhir_patient (parse_hl7 msg5) = some p5 ∧
    p5.patient_id = "999".data ∧
    p5.gender = "female".data ∧
    p5.birth_date = some "1990-01-01".data ∧
    hl7_to_fhir_encounter (parse_hl7 msg5) (patientIdOpt p5) = .ok (some e5) ∧
    e5.class_code = "IMP".data ∧
    "CLM*999*150***11:B:1*Y*A*Y*Y".data ∈ x12Segments (fhir_to_837_claim p5 e5) ∧
    parse_837_basic (fhir_to_837_claim p5 e5) = .ok (some ⟨"999".data, 150⟩) :=
  ⟨by decide, rfl, rfl, rfl, by decide, rfl, by decide, parse_claim5⟩

/-- C6: the encounter extractor's admission-timestamp path: when the first
PV1 segment's field 44 is non-empty and at least 12 characters long, the
extractor raises (an uncaught `ValueError` escapes) exactly when the first
12 characters do not parse under the `%Y%m%d%H%M` format; when they do
parse, the period start carries the parsed timestamp; when the field is
absent or shorter than 12 characters, no parse is attempted and the
period start is absent. -/
theorem C6_admit_hard_failure (segments : SegTable) (pid : Option Chars)
    (pv1_list : List Seg)
    (hget : tblGet segments "PV1".data = some pv1_list)
    (hne : pv1_list.isEmpty = false) :
    ((fld (pv1_list.headD []) 44 ≠ [] ∧ 12 ≤ (fld (pv1_list.headD []) 44).length) →
      ((hl7_to_fhir_encounter segments pid = .error .valueError ↔
        strptimeYmdHM ((fld (pv1_list.headD []) 44).take 12) = none) ∧
       (∀ dt, strptimeYmdHM ((fld (pv1_list.headD []) 44).take 12) = some dt →
         ∃ e, hl7_to_fhir_encounter segments pid = .ok (some e) ∧
           e.period_start = some dt))) ∧
    (¬(fld (pv1_list.headD []) 44 ≠ [] ∧ 12 ≤ (fld (pv1_list.headD []) 44).length) →
      ∃ e, hl7_to_fhir_encounter segments pid = .ok (some e) ∧
        e.period_start = none) := by
  have hE : ∃ cc ld sb, hl7_to_fhir_encounter segments pid =
      (if fld (pv1_list.headD []) 44 ≠ [] ∧ 12 ≤ (fld (pv1_list.headD []) 44).length then
        match strptimeYmdHM ((fld (pv1_list.headD []) 44).take 12) with
        | none => Except.error PyExc.valueError
        | some dt => Except.ok (some ⟨cc, ld, some dt, sb⟩)
      else Except.ok (some ⟨cc, ld, none, sb⟩)) := by
    refine ⟨(if fld (pv1_list.headD []) 2 = "I".data then "IMP".data
        else if fld (pv1_list.headD []) 2 = "O".data then "AMB".data
        else if fld (pv1_list.headD []) 2 = "E".data then "EMER".data
        else "AMB".data),
      (if (if fld (pv1_list.headD []) 3 ≠ [] then
            pySplit '^' (fld (pv1_list.headD []) 3) else []) ≠ [] then
        some (joinChar '^' (if fld (pv1_list.headD []) 3 ≠ [] then
          pySplit '^' (fld (pv1_list.headD []) 3) else []))
      else none),
      (if truthy pid then some ("Patient/".data ++ pid.getD []) else none), ?_⟩
    unfold hl7_to_fhir_encounter
    rw [hget]
    simp only [hne]
    rfl
  obtain ⟨cc, ld, sb, hE⟩ := hE
  constructor
  · intro hc
    rw [hE, if_pos hc]
    constructor
    · cases hstrp : strptimeYmdHM ((fld (pv1_list.headD []) 44).take 12) <;> simp
    · intro dt hdt
      rw [hdt]
      exact ⟨_, rfl, rfl⟩
  · intro hc
    rw [hE, if_neg hc]
    exact ⟨_, rfl, rfl⟩

def msgC6 : Chars := "PV1||||||||||||||||||||||||||||||||||||||||||||ABCDEFGHIJKL".data

/-- Witness for C6 at a PV1 whose field 44 is the unparsable 12-character
string `ABCDEFGHIJKL`. -/
theorem C6_admit_hard_failure_witness :
    tblGet (parse_hl7 msgC6) "PV1".data = some [pySplit '|' msgC6] ∧
    ([pySplit '|' msgC6] : List Seg).isEmpty = false ∧
    (((fld (([pySplit '|' msgC6] : List Seg).headD []) 44 ≠ [] ∧
        12 ≤ (fld (([pySplit '|' msgC6] : List Seg).headD []) 44).length) →
      ((hl7_to_fhir_encounter (parse_hl7 msgC6) none = .error .valueError ↔
        strptimeYmdHM ((fld (([pySplit '|' msgC6] : List Seg).headD []) 44).take 12) =
          none) ∧
       (∀ dt, strptimeYmdHM
           ((fld (([pySplit '|' msgC6] : List Seg).headD []) 44).take 12) = some dt →
         ∃ e, hl7_to_fhir_encounter (parse_hl7 msgC6) none = .ok (some e) ∧
           e.period_start = some dt))) ∧
    (¬(fld (([pySplit '|' msgC6] : List Seg).headD []) 44 ≠ [] ∧
        12 ≤ (fld (([pySplit '|' msgC6] : List Seg).headD []) 44).length) →
      ∃ e, hl7_to_fhir_encounter (parse_hl7 msgC6) none = .ok (some e) ∧
        e.period_start = none)) :=
  ⟨by decide, by decide,
   C6_admit_hard_failure (parse_hl7 msgC6) none [pySplit '|' msgC6] (by decide) rfl⟩

def mshC7 : Chars := "MSH|^~\\&|A|B|C|D|20250101120000||ADT^A01|MSG1|P|2.3".data

def pv1C7 : Chars := "PV1||||||||||||||||||||||||||||||||||||||||||||20250630101530".data

def msgC7 : Chars := mshC7 ++ "\n".data ++ pv1C7

/-- C7 (amended): in the summary extractor, when the message's line list
is some prefix followed by a final PV1 line whose field 44 is present
(more than 44 fields and the field non-empty), that field is parsed with
the `%Y%m%d%H%M%S` format — not the `YYYYMMDDHHMM` format the spec
names — and on success its value overwrites the summary's event time,
while on failure the failure is silently swallowed and the event time
computed from the earlier lines is kept; the extractor is a total
function and never raises. -/
theorem C7_event_time (hl7_text : Chars) (pre : List Chars) (pv1line : Chars)
    (htext : hl7_text ≠ [])
    (hlines : (pySplit '\n' (normNl hl7_text)).filter (fun l => pyStrip l ≠ []) =
      pre ++ [pv1line])
    (hseg : fld (pySplit '|' pv1line) 0 = "PV1".data)
    (hlen : 44 < (pySplit '|' pv1line).length)
    (hne : fld (pySplit '|' pv1line) 44 ≠ []) :
    (extract_hl7_summary hl7_text).event_time =
      match strptimeYmdHMS (fld (pySplit '|' pv1line) 44) with
      | some dt => some dt
      | none => (pre.foldl sumStep sumInit).event_time := by
  have h1 : ¬(fld (pySplit '|' pv1line) 0 = "MSH".data ∧
      8 < (pySplit '|' pv1line).length) := by
    intro hc
    rw [hseg] at hc
    exact absurd hc.1 (by decide)
  have h2 : ¬(fld (pySplit '|' pv1line) 0 = "PID".data) := by
    intro hc
    rw [hseg] at hc
    exact absurd hc (by decide)
  unfold extract_hl7_summary
  rw [if_neg htext, hlines, List.foldl_append, List.foldl_cons, List.foldl_nil]
  simp only [sumStep]
  rw [if_neg h1, if_neg h2, if_pos hseg, if_pos (And.intro hlen hne)]
  cases hstrp : strptimeYmdHMS (fld (pySplit '|' pv1line) 44) with
  | some dt => rfl
  | none =>
    by_cases h2l : 2 < (pySplit '|' pv1line).length
    · rw [if_pos h2l]
    · rw [if_neg h2l]

/-- Witness for C7 at an MSH line followed by a PV1 line whose field 44
is the 14-digit timestamp 20250630101530. -/
theorem C7_event_time_witness :
    (msgC7 ≠ [] ∧
     (pySplit '\n' (normNl msgC7)).filter (fun l => pyStrip l ≠ []) =
       [mshC7] ++ [pv1C7] ∧
     fld (pySplit '|' pv1C7) 0 = "PV1".data ∧
     44 < (pySplit '|' pv1C7).length ∧
     fld (pySplit '|' pv1C7) 44 ≠ []) ∧
    (extract_hl7_summary msgC7).event_time =
      match strptimeYmdHMS (fld (pySplit '|' pv1C7) 44) with
      | some dt => some dt
      | none => ([mshC7].foldl sumStep sumInit).event_time :=
  ⟨⟨by decide, by decide, by decide, by decide, by decide⟩,
   C7_event_time msgC7 [mshC7] pv1C7 (by decide) (by decide) (by decide) (by decide)
     (by decide)⟩

/-- Counterexample to C7 as stated: the PV1 field 44 of `msgC7` is the
14-character string 20250630101530, which does not parse under the
claimed `YYYYMMDDHHMM` format, so per the claim the previously set MSH-7
event time 2025-01-01T12:00:00 should be kept; the code instead parses
the field with `%Y%m%d%H%M%S`, succeeds, and overwrites the event time
with 2025-06-30T10:15:30. -/
theorem C7_counterexample :
    strptimeYmdHM "20250630101530".data = none ∧
    (extract_hl7_summary mshC7).event_time = some ⟨2025, 1, 1, 12, 0, 0⟩ ∧
    (extract_hl7_summary msgC7).event_time = some ⟨2025, 6, 30, 10, 15, 30⟩ ∧
    (extract_hl7_summary msgC7).event_time ≠ (extract_hl7_summary mshC7).event_time :=
  ⟨by decide, by decide, by decide, by decide⟩

def msgC8a : Chars := "MSH|^~\\&|A|B|C|D|7||ADT^A01".data

def msgC8b : Chars := "MSH|^~\\&|A|B|C|D|7||ADT^A01\nPID|1".data

/-- C8: the validator returns exactly the one missing-MSH error (and no
warnings, no further checks) when the stripped input does not start with
`MSH`; otherwise, for every ADT-family message it reports an error when
no PID segment exists, an error when the first PID segment's field 3 is
empty, and when the PV1 segment is absent it emits only a warning — the
PV1 message never appears among the errors. -/
theorem C8_validator (hl7_text : Chars) :
    ("MSH".data.isPrefixOf (pyStrip hl7_text) = false →
      validate_hl7_message hl7_text =
        (["Missing MSH segment (message must start with MSH)".data], [])) ∧
    ("MSH".data.isPrefixOf (pyStrip hl7_text) = true →
     "ADT".data.isPrefixOf (fld (vMsh hl7_text) 8) = true →
      ((tblGet (parse_hl7 hl7_text) "PID".data = none →
         "ADT requires PID segment".data ∈ (validate_hl7_message hl7_text).1) ∧
       (∀ pid_list, tblGet (parse_hl7 hl7_text) "PID".data = some pid_list →
         fld (pid_list.headD []) 3 = [] →
           "Missing PID-3 (Patient Identifier)".data ∈
             (validate_hl7_message hl7_text).1) ∧
       (tblGet (parse_hl7 hl7_text) "PV1".data = none →
         "Missing PV1 segment (Encounter will not be generated)".data ∈
             (validate_hl7_message hl7_text).2 ∧
           "Missing PV1 segment (Encounter will not be generated)".data ∉
             (validate_hl7_message hl7_text).1))) := by
  have hV : "MSH".data.isPrefixOf (pyStrip hl7_text) = true →
      "ADT".data.isPrefixOf (fld (vMsh hl7_text) 8) = true →
      validate_hl7_message hl7_text =
        ((if fld (vMsh hl7_text) 8 = [] then
            ["Missing MSH-9 (message type)".data] else []) ++
          (match tblGet (parse_hl7 hl7_text) "PID".data with
           | none => ["ADT requires PID segment".data]
           | some pid_list =>
             if fld (pid_list.headD []) 3 = [] then
               ["Missing PID-3 (Patient Identifier)".data] else []),
         if (tblGet (parse_hl7 hl7_text) "PV1".data).isNone then
           ["Missing PV1 segment (Encounter will not be generated)".data]
         else []) := by
    intro hMSH hADT
    unfold validate_hl7_message
    simp only [hMSH, Bool.not_true, Bool.false_eq_true, if_false]
    rw [if_pos hADT]
  constructor
  · intro hF
    unfold validate_hl7_message
    rw [hF]
    rfl
  · intro hMSH hADT
    rw [hV hMSH hADT]
    refine ⟨?_, ?_, ?_⟩
    · intro hpid
      rw [hpid]
      simp
    · intro pid_list hl h3
      rw [hl]
      simp only [h3, if_pos]
      simp
    · intro hpv1
      rw [hpv1]
      refine ⟨by simp, ?_⟩
      intro hmem
      rcases List.mem_append.mp hmem with h | h
      · split at h
        · exact absurd (List.mem_singleton.mp h) (by decide)
        · simp at h
      · split at h
        · exact absurd (List.mem_singleton.mp h) (by decide)
        · split at h
          · exact absurd (List.mem_singleton.mp h) (by decide)
          · simp at h

/-- Witness for C8: the one-error short-circuit at a non-MSH input, the
missing-PID error and PV1 warning at `msgC8a`, and the empty-PID-3 error
at `msgC8b`. -/
theorem C8_validator_witness :
    "MSH".data.isPrefixOf (pyStrip "hello".data) = false ∧
    validate_hl7_message "hello".data =
      (["Missing MSH segment (message must start with MSH)".data], []) ∧
    "ADT requires PID segment".data ∈ (validate_hl7_message msgC8a).1 ∧
    "Missing PV1 segment (Encounter will not be generated)".data ∈
      (validate_hl7_message msgC8a).2 ∧
    "Missing PV1 segment (Encounter will not be generated)".data ∉
      (validate_hl7_message msgC8a).1 ∧
    "Missing PID-3 (Patient Identifier)".data ∈ (validate_hl7_message msgC8b).1 := by
  refine ⟨by decide, (C8_validator "hello".data).1 (by decide), ?_, ?_, ?_, ?_⟩
  · exact ((C8_validator msgC8a).2 (by decide) (by decide)).1 (by decide)
  · exact (((C8_validator msgC8a).2 (by decide) (by decide)).2.2 (by decide)).1
  · exact (((C8_validator msgC8a).2 (by decide) (by decide)).2.2 (by decide)).2
  · exact ((C8_validator msgC8b).2 (by decide) (by decide)).2.1
      [pySplit '|' "PID|1".data] (by decide) (by decide)

theorem psteps_seq : ∀ (all : List StepResult) (k : Nat),
    ((((List.range' k all.length).zip all).map
      (fun p => (⟨p.1 + 1, p.2.step_name, p.2.status, p.2.message.take 255⟩ : PStep))).map
      (fun s => s.sequence)) = List.range' (k+1) all.length
  | [], _ => rfl
  | a :: t, k => by
    simp only [List.length_cons, List.range'_succ, List.zip_cons_cons, List.map_cons]
    rw [psteps_seq t (k+1)]

theorem psteps_len (all : List StepResult) (k : Nat) :
    (((List.range' k all.length).zip all).map
      (fun p => (⟨p.1 + 1, p.2.step_name, p.2.status, p.2.message.take 255⟩ : PStep))).length =
      all.length := by
  simp [List.length_zip, List.length_range']

theorem psteps_tuple : ∀ (all : List StepResult) (k : Nat),
    ((((List.range' k all.length).zip all).map
      (fun p => (⟨p.1 + 1, p.2.step_name, p.2.status, p.2.message.take 255⟩ : PStep))).map
      (fun s => (s.step_name, s.status, s.message))) =
      all.map (fun s => (s.step_name, s.status, s.message.take 255))
  | [], _ => rfl
  | a :: t, k => by
    simp only [List.length_cons, List.range'_succ, List.zip_cons_cons, List.map_cons]
    rw [psteps_tuple t (k+1)]

theorem psteps_filter : ∀ (all : List StepResult) (k : Nat),
    ((((List.range' k all.length).zip all).map
      (fun p => (⟨p.1 + 1, p.2.step_name, p.2.status, p.2.message.take 255⟩ : PStep))).filter
      (fun s => s.status = .error)).length =
      (all.filter (fun s => s.status = .error)).length
  | [], _ => rfl
  | a :: t, k => by
    simp only [List.length_cons, List.range'_succ, List.zip_cons_cons, List.map_cons,
      List.filter_cons]
    by_cases h : a.status = .error <;> simp [h, psteps_filter t (k+1)]

theorem ingest_shape (jl : Chars → Except Unit JsonVal) (raw : Chars)
    (declared : Option Chars) (out : Chars) (meta : List (Chars × Chars)) :
    ∃ pre : List StepResult,
      (ingest_payload jl raw declared out meta).steps =
        ((List.range (pre ++ [if pre.any (fun s => s.status = .error) then
            (⟨"transform".data, .warn,
              "Transform skipped due to prior errors".data⟩ : StepResult)
          else ⟨"transform".data, .ok, "Transform planned (MVP)".data⟩]).length).zip
          (pre ++ [if pre.any (fun s => s.status = .error) then
            (⟨"transform".data, .warn,
              "Transform skipped due to prior errors".data⟩ : StepResult)
          else ⟨"transform".data, .ok, "Transform planned (MVP)".data⟩])).map
          (fun p => (⟨p.1 + 1, p.2.step_name, p.2.status, p.2.message.take 255⟩ : PStep)) ∧
      (ingest_payload jl raw declared out meta).error_count =
        ((pre ++ [if pre.any (fun s => s.status = .error) then
            (⟨"transform".data, .warn,
              "Transform skipped due to prior errors".data⟩ : StepResult)
          else ⟨"transform".data, .ok, "Transform planned (MVP)".data⟩]).filter
          (fun s => s.status = .error)).length ∧
      (ingest_payload jl raw declared out meta).status =
        (if pre.any (fun s => s.status = .error) then LogStatus.failed
         else LogStatus.processed) :=
  ⟨_, rfl, rfl, rfl⟩

/-- C9: for every ingestion by the trace engine (any `json.loads`
collaborator, payload, declared type, output type and meta): there is a
list `pre` of parse/validate steps such that the persisted step rows are
exactly `pre` followed by one transform step; the log status is `failed`
exactly when some step of `pre` has status `error`, in which case the
transform step is the `warn` transform-skipped step, and `processed`
otherwise with the `ok` transform-planned step; the persisted sequence
numbers are `1, 2, …` in production order; and the log's `error_count`
equals the number of persisted steps with status `error`. -/
theorem C9_ingest (jl : Chars → Except Unit JsonVal) (raw : Chars)
    (declared : Option Chars) (out : Chars) (meta : List (Chars × Chars)) :
    ∃ pre : List StepResult,
      (ingest_payload jl raw declared out meta).steps.map (fun s => s.sequence) =
        List.range' 1 ((ingest_payload jl raw declared out meta).steps.length) ∧
      (ingest_payload jl raw declared out meta).error_count =
        ((ingest_payload jl raw declared out meta).steps.filter
          (fun s => s.status = .error)).length ∧
      (ingest_payload jl raw declared out meta).steps.map
          (fun s => (s.step_name, s.status, s.message)) =
        pre.map (fun s => (s.step_name, s.status, s.message.take 255)) ++
          [if pre.any (fun s => s.status = .error) then
            ("transform".data, StepStatus.warn,
              "Transform skipped due to prior errors".data)
          else ("transform".data, StepStatus.ok, "Transform planned (MVP)".data)] ∧
      (ingest_payload jl raw declared out meta).status =
        (if pre.any (fun s => s.status = .error) then LogStatus.failed
         else LogStatus.processed) := by
  obtain ⟨pre, h1, h2, h3⟩ := ingest_shape jl raw declared out meta
  refine ⟨pre, ?_, ?_, ?_, h3⟩
  · rw [h1, List.range_eq_range', psteps_seq, psteps_len]
  · rw [h2, h1, List.range_eq_range', psteps_filter]
  · rw [h1, List.range_eq_range', psteps_tuple, List.map_append]
    by_cases hc : pre.any (fun s => s.status = .error) = true
    · rw [if_pos hc, if_pos hc]
      simp only [List.map_cons, List.map_nil]
      congr 1
    · rw [if_neg hc, if_neg hc]
      simp only [List.map_cons, List.map_nil]
      congr 1
